import Mathlib

/-!
Shallow embedding of the KA10 CPU simulator (src/PDP10/ka10_cpu.c, built with
KI = 0, i.e. the KA10 configuration) and proofs about the claims of the
specification.  Machine words are `Nat` values below `2 ^ 36`; the global C
variables become fields of a single state record `KAState`; every C helper
that the claims touch is transcribed as a Lean function on that record.
-/

namespace KA10

/-- Word mask constants.  Modelled from the spec: the constants live in
`ka10_defs.h`, which is not part of the sources; spec section 3 defines them as
FMASK (all 36 bits), SMASK (bit 0), RMASK (right half, bits 18-35), LMASK
(left half, bits 0-17), CMASK (bits 1-35), C1 (carry out of bit 0, bit 36).
`FMASK` is all 36 bits set. -/
def FMASK : Nat := 0o777777777777

/-- Sign bit, bit 0 of the 36-bit word. -/
def SMASK : Nat := 0o400000000000

/-- Magnitude bits 1-35 of the 36-bit word. -/
def CMASK : Nat := 0o377777777777

/-- Right half, bits 18-35. -/
def RMASK : Nat := 0o777777

/-- Left half, bits 0-17. -/
def LMASK : Nat := 0o777777000000

/-- Carry out of bit 0, i.e. bit 36. -/
def C1 : Nat := 0o1000000000000

/-- Byte-pointer mask: everything except the position field (bits 6-35).
Modelled from the spec: byte pointer layout has position in bits 0-5, so the
mask that clears only the position field is the low 30 bits. -/
def PMASK : Nat := 0o7777777777

/-- Sign bit of an 18-bit half word (bit 0 of a right half). -/
def LSIGN : Nat := 0o400000

/-- One's complement of a 36-bit word, `CM(x)` in the source
(`#define CM(x) (FMASK ^ (x))`). -/
def CM (x : Nat) : Nat := FMASK ^^^ x

/-- Flag bits of the 13-bit FLAGS register.  Modelled from the spec: the bit
values come from `ka10_defs.h` (not in the sources).  FLAGS is stored into the
left half of a PC word by `FLAGS << 23`, so FLAGS bit 12 is word bit 0 (OVR),
bit 11 is CRY0, bit 10 is CRY1, bit 9 is FLTOVR, bit 8 is BYTI, bit 7 is USER,
bit 6 is USERIO, down to TRP1 and NODIV in the low bits; this matches every
use in the source (`FLAGS &= 01777` clears OVR, CRY0, CRY1, FLTOVR;
`(FLAGS >> 9) & AC` tests OVR..FLTOVR in JFCL; `(FLAGS & (USER|USERIO))`
tests the mode bits). -/
def OVR : Nat := 0o10000

/-- Carry out of bit 0 flag. -/
def CRY0 : Nat := 0o4000

/-- Carry out of bit 1 flag. -/
def CRY1 : Nat := 0o2000

/-- Floating overflow flag. -/
def FLTOVR : Nat := 0o1000

/-- Byte interrupt (first part done) flag. -/
def BYTI : Nat := 0o400

/-- User mode flag. -/
def USER : Nat := 0o200

/-- User in-out flag. -/
def USERIO : Nat := 0o100

/-- Trap 1 flag. -/
def TRP1 : Nat := 0o4

/-- State of the KA10 CPU simulator: one field per C global that the claims
touch.  Memory `M` and the fast-register file `FM` are total functions so that
frame properties can be stated pointwise. -/
structure KAState where
  M : Nat → Nat
  FM : Nat → Nat
  AR : Nat := 0
  BR : Nat := 0
  MQ : Nat := 0
  MB : Nat := 0
  AB : Nat := 0
  AC : Nat := 0
  PC : Nat := 0
  flags : Nat := 0
  Pl : Nat := 0
  Ph : Nat := 0
  Rl : Nat := 0
  Rh : Nat := 0
  Pflag : Bool := false
  twoseg : Bool := false
  mem_prot : Bool := false
  nxm_flag : Bool := false
  push_ovf : Bool := false
  clk_flg : Bool := false
  ov_irq : Bool := false
  fov_irq : Bool := false
  clk_en : Bool := false
  PIR : Nat := 0
  PIH : Nat := 0
  PIE : Nat := 0
  pi_enable : Bool := false
  pi_pending : Bool := false
  pi_enc : Nat := 0
  apr_irq : Nat := 0
  clk_irq : Nat := 0
  dev_irq : Nat → Nat
  memsize : Nat := 0

/-- Transcription of `set_interrupt` (ka10_cpu.c lines 583-590):
mask the level to three bits; if it is non-zero, overwrite the device entry
`dev_irq[dev >> 2]` with the single bit `0200 >> lvl` and assert
`pi_pending`. -/
def set_interrupt (dev lvl : Nat) (s : KAState) : KAState :=
  let l := lvl &&& 0o7
  if l ≠ 0 then
    { s with dev_irq := fun i => if i = dev >>> 2 then 0o200 >>> l else s.dev_irq i
             pi_pending := true }
  else s

/-- Transcription of `clr_interrupt` (lines 592-595): clear the device
entry. -/
def clr_interrupt (dev : Nat) (s : KAState) : KAState :=
  { s with dev_irq := fun i => if i = dev >>> 2 then 0 else s.dev_irq i }

/-- Transcription of `check_apr_irq` (lines 597-617, KA10 branch): clear the
APR and clock requests, re-request the APR interrupt if any trap flag that is
enabled is pending, and re-request the clock interrupt if the clock flag and
clock enable are set. -/
def check_apr_irq (s : KAState) : KAState :=
  let s1 := clr_interrupt 4 (clr_interrupt 0 s)
  let flg := ((s1.flags &&& OVR ≠ 0) ∧ s1.ov_irq) ∨
             ((s1.flags &&& FLTOVR ≠ 0) ∧ s1.fov_irq) ∨
             s1.nxm_flag ∨ s1.mem_prot ∨ s1.push_ovf
  let s2 := if s1.apr_irq ≠ 0 ∧ flg then set_interrupt 0 s1.apr_irq s1 else s1
  if s2.clk_flg ∧ s2.clk_en then set_interrupt 4 s2.clk_irq s2 else s2

/-- Transcription of the KA10 `page_lookup` (lines 882-900).  `flag` is the
privileged-fetch flag, `wr` the write flag.  Returns the success indicator,
the translated location, and the updated state.  The relocation adds use the
global `AB`, exactly as the source does. -/
def page_lookup (addr : Nat) (flag : Bool) (wr : Bool) (s : KAState) :
    Bool × Nat × KAState :=
  if ¬flag ∧ s.flags &&& USER ≠ 0 then
    if addr ≤ (s.Pl <<< 10) + 0o1777 then
      (true, (s.AB + (s.Rl <<< 10)) &&& RMASK, s)
    else if s.twoseg ∧ ((!s.Pflag && wr) = wr) ∧ (s.AB &&& 0o400000 ≠ 0) ∧
            addr ≤ (s.Ph <<< 10) + 0o1777 then
      (true, (s.AB + (s.Rh <<< 10)) &&& RMASK, s)
    else
      (false, 0, set_interrupt 0 s.apr_irq { s with mem_prot := true })
  else
    (true, addr, s)

/-- Transcription of `Mem_read` (lines 1007-1023).  The boolean result is the
C return value: `true` means failure.  Addresses below 020 read the
fast-register file through the KA `get_reg` macro (`FM[(reg) & 017]`); other
addresses are translated by `page_lookup`, and a translated address strictly
above `MEMSIZE` raises NXM and requests the APR interrupt.  The host
book-keeping (`sim_interval`) is not modelled. -/
def Mem_read (flag : Bool) (s : KAState) : Bool × KAState :=
  if s.AB < 0o20 then
    (false, { s with MB := s.FM (s.AB &&& 0o17) })
  else
    match page_lookup s.AB flag false s with
    | (false, _, s1) => (true, s1)
    | (true, addr, s1) =>
      if addr > s1.memsize then
        (true, set_interrupt 0 s1.apr_irq { s1 with nxm_flag := true })
      else
        (false, { s1 with MB := s1.M addr })

/-- Transcription of `Mem_write` (lines 1025-1041), symmetric to `Mem_read`
with the write-permission flag passed to `page_lookup` and the KA `set_reg`
macro (`FM[(reg) & 017] = value`) for addresses below 020. -/
def Mem_write (flag : Bool) (s : KAState) : Bool × KAState :=
  if s.AB < 0o20 then
    (false, { s with FM := fun i => if i = s.AB &&& 0o17 then s.MB else s.FM i })
  else
    match page_lookup s.AB flag true s with
    | (false, _, s1) => (true, s1)
    | (true, addr, s1) =>
      if addr > s1.memsize then
        (true, set_interrupt 0 s1.apr_irq { s1 with nxm_flag := true })
      else
        (false, { s1 with M := fun i => if i = addr then s1.MB else s1.M i })

/-- Transcription of the ADD body, `case 0270` with `(IR & 04) == 0`
(lines 2585-2604).  Input: current FLAGS, `AR` (memory operand) and `BR`
(accumulator operand); output: the 36-bit result and the new FLAGS.  The body
first clears OVR, CRY0, CRY1 and FLTOVR (`FLAGS &= 01777`), sets CRY1 from
the carry of the low 35 bits, CRY0 from bit 36 of the full sum, and OVR when
the two differ.  The `check_apr_irq` side effect is treated separately from
the flag word. -/
def add_exec (FLAGS AR BR : Nat) : Nat × Nat :=
  let F0 := FLAGS &&& 0o1777
  let flag1 := ((AR &&& CMASK) + (BR &&& CMASK)) &&& SMASK != 0
  let F1 := if flag1 then F0 ||| CRY1 else F0
  let BR1 := AR + BR
  let flag3 := BR1 &&& C1 != 0
  let F2 := if flag3 then F1 ||| CRY0 else F1
  let F3 := if flag1 != flag3 then F2 ||| OVR else F2
  (BR1 &&& FMASK, F3)

/-- Transcription of the SUB body, `case 0270` with `(IR & 04) != 0`
(lines 2569-2584).  `AR` holds the memory operand (the subtrahend), `BR`
the accumulator (the minuend); the machine computes `CM(AR) + BR + 1`. -/
def sub_exec (FLAGS AR BR : Nat) : Nat × Nat :=
  let F0 := FLAGS &&& 0o1777
  let flag1 := (((AR &&& CMASK) ^^^ CMASK) + (BR &&& CMASK) + 1) &&& SMASK != 0
  let F1 := if flag1 then F0 ||| CRY1 else F0
  let BR1 := CM AR + BR + 1
  let flag3 := BR1 &&& C1 != 0
  let F2 := if flag3 then F1 ||| CRY0 else F1
  let F3 := if flag1 != flag3 then F2 ||| OVR else F2
  (BR1 &&& FMASK, F3)

/-- Transcription of the MOVN path of `case 0210` (lines 1972-1995, with
`IR & 04 == 0` so the MOVM early exit is not taken): clear OVR/CRY0/CRY1/
FLTOVR, set CRY1 when negating the low 35 bits carries into the sign, set
CRY0 when `CM(AR) + 1` carries out of bit 36, and set OVR (with TRP1) when
the two carries differ and this is not an interrupt cycle.  Result is
`(CM(AR) + 1) & FMASK`. -/
def movn_exec (FLAGS AR : Nat) (pi_cycle : Bool) : Nat × Nat :=
  let F0 := FLAGS &&& 0o1777
  let flag1 := (((AR &&& CMASK) ^^^ CMASK) + 1) &&& SMASK != 0
  let F1 := if flag1 then F0 ||| CRY1 else F0
  let AD := CM AR + 1
  let flag3 := AD &&& C1 != 0
  let F2 := if flag3 then F1 ||| CRY0 else F1
  let F3 := if (flag1 != flag3) && !pi_cycle then F2 ||| (OVR ||| TRP1) else F2
  (AD &&& FMASK, F3)

/-- Transcription of the increment-pointer phase of IBP/ILDB/IDPB
(lines 1611-1624, KA10 branch): `SC` gets the size field, `SCAD` the
9-bit difference position minus size; when the difference is negative
(bit 0400 of `SCAD`), the new position is `36 - size` computed modulo 512 and
the whole 36-bit word is incremented (`AR = (AR + 1) & FMASK`); otherwise the
new position is the difference and the word is unchanged.  Finally the
position field is replaced (`AR &= PMASK; AR |= (SC & 077) << 30`). -/
def bp_inc (AR : Nat) : Nat :=
  let SC := (AR >>> 24) &&& 0o77
  let SCAD := (((AR >>> 30) &&& 0o77) + (0o777 ^^^ SC) + 1) &&& 0o777
  let SC2 := if SCAD &&& 0o400 ≠ 0 then
               ((0o777 ^^^ ((AR >>> 24) &&& 0o77)) + 0o44 + 1) &&& 0o777
             else SCAD
  let AR1 := if SCAD &&& 0o400 ≠ 0 then (AR + 1) &&& FMASK else AR
  (AR1 &&& PMASK) ||| ((SC2 &&& 0o77) <<< 30)

/-- Definition following the words of claim C7 (not the source), for the
refinement comparison: subtract size from position; when the difference is
not negative, replace the position field and leave everything else unchanged;
when it is negative, set the position to `36 - S` and increment the 18-bit
word-address field by one, leaving the size, indirect and index fields
unchanged. -/
def bp_inc_claimed (w : Nat) : Nat :=
  let P := (w >>> 30) &&& 0o77
  let S := (w >>> 24) &&& 0o77
  if S ≤ P then
    (w &&& PMASK) ||| ((P - S) <<< 30)
  else
    (w &&& (PMASK ^^^ RMASK)) ||| (((w &&& RMASK) + 1) &&& RMASK) |||
      ((36 - S) <<< 30)

/-- First phase of LDB/DPB (lines 1631-1641): position into `SC`, byte mask
`2^size - 1` into `MQ`, then `SC = ((0777 ^ SC) + 1) & 0777` so that the
second-phase loop shifts `position` times. -/
def byte_phase1 (p : Nat) : Nat × Nat :=
  let SC := (p >>> 30) &&& 0o77
  let MQ := (1 <<< ((p >>> 24) &&& 0o77)) - 1
  (((0o777 ^^^ SC) + 1) &&& 0o777, MQ)

/-- The LDB shift loop (lines 1645-1648): `while (SC != 0) { AR >>= 1;
SC = (SC + 1) & 0777; }`.  The count is always below 512 at entry, so 512
steps of fuel are enough to run the loop to completion. -/
def ldb_loop : Nat → Nat → Nat → Nat
  | 0, ar, _ => ar
  | fuel + 1, ar, sc => if sc = 0 then ar else ldb_loop fuel (ar >>> 1) ((sc + 1) &&& 0o777)

/-- The DPB shift loop (lines 1654-1658): `while (SC != 0) { AR <<= 1;
MQ <<= 1; SC = (SC + 1) & 0777; }`. -/
def dpb_loop : Nat → Nat → Nat → Nat → Nat × Nat
  | 0, ar, mq, _ => (ar, mq)
  | fuel + 1, ar, mq, sc =>
    if sc = 0 then (ar, mq)
    else dpb_loop fuel (ar <<< 1) (mq <<< 1) ((sc + 1) &&& 0o777)

/-- Byte extracted by the second phase of LDB (lines 1643-1650) from word `w`
with byte pointer `p`: `AR = MB`, shift right `SC` times, `AR &= MQ`. -/
def ldb_byte (p w : Nat) : Nat :=
  let (SC, MQ) := byte_phase1 p
  ldb_loop 512 w SC &&& MQ

/-- Word produced by the second phase of DPB (lines 1651-1664) depositing the
accumulator value `ac` into word `w` under byte pointer `p`:
`BR = MB; AR = get_reg(AC) & MQ`, shift `AR` and `MQ` left `SC` times,
`BR &= CM(MQ); AR &= FMASK; BR |= AR & MQ`. -/
def dpb_word (p ac w : Nat) : Nat :=
  let (SC, MQ) := byte_phase1 p
  let AR0 := ac &&& MQ
  let (AR1, MQ1) := dpb_loop 512 AR0 MQ SC
  (w &&& CM MQ1) ||| ((AR1 &&& FMASK) &&& MQ1)

/-- The level-scan loop of `check_irq_level` (lines 633-641): starting at
level 2 with mask 0040, accumulate a level into `pi_ok` while the
next-higher level is neither requested nor held (bit of `pi_t`), and stop at
the first level whose superior is busy.  `fuel` counts the loop iterations
`i = 2 .. 7`. -/
def pi_scan : Nat → Nat → Nat → Nat → Nat
  | 0, _, _, acc => acc
  | fuel + 1, lvl, pit, acc =>
    if lvl &&& pit ≠ 0 then pi_scan fuel (lvl >>> 1) pit (acc ||| lvl) else acc

/-- The encoder loop of `check_irq_level` (lines 646-651): find the
highest-priority set bit of `pi_req`, counting levels from 1; if no bit is
found in seven steps the C loop leaves `lvl = 8`. -/
def pi_lead : Nat → Nat → Nat → Nat
  | 0, lvl, _ => lvl
  | fuel + 1, lvl, r => if r &&& 0o100 ≠ 0 then lvl else pi_lead fuel (lvl + 1) (r <<< 1)

/-- Core of the interrupt arbitration (lines 628-655) as a function of the
merged request word `pir` (after `PIR |= lvl & PIE`) and the hold word
`pih`.  Returns the granted level 1-7, or 0 when no interrupt is granted.
The C one's complements `~PIR` and `~PIH` are taken inside seven bits
(`^^^ 0o177`), which is exact for the 7-bit PIR/PIH values and the masks
0100..0001 the code tests. -/
def grant_core (pir pih : Nat) : Nat :=
  let pi_t := ((pir ^^^ 0o177) &&& (pih ^^^ 0o177)) >>> 1
  let first := 0o100 &&& (pir &&& (pih ^^^ 0o177))
  let pi_ok := if first = 0 then pi_scan 6 0o40 pi_t 0 else first
  let pi_req := pir &&& (pih ^^^ 0o177) &&& pi_ok
  if pi_req ≠ 0 then pi_lead 7 1 pi_req else 0

/-- The request-gathering loop of `check_irq_level` (lines 623-624): OR of
all 128 device request entries. -/
def irq_or (s : KAState) : Nat :=
  (List.range 128).foldl (fun a i => a ||| s.dev_irq i) 0

/-- Transcription of `check_irq_level` (lines 619-656): OR all device
requests together, clear `pi_pending` when there are none, merge the enabled
device requests into `PIR`, and run the arbitration; on a grant, record the
encoded level in `pi_enc` and return 1. -/
def check_irq_level (s : KAState) : Bool × KAState :=
  let lvl := irq_or s
  let s1 := { s with pi_pending := if lvl = 0 then false else s.pi_pending
                     PIR := s.PIR ||| (lvl &&& s.PIE) }
  let g := grant_core s1.PIR s1.PIH
  if g ≠ 0 then (true, { s1 with pi_enc := g }) else (false, s1)

/-- Transcription of `set_pi_hold` (lines 680-683): hold the granted level
and drop its program request.  The C `~(0200 >> pi_enc)` is taken inside
eight bits, exact for the 7-bit PIR. -/
def set_pi_hold (s : KAState) : KAState :=
  { s with PIH := s.PIH ||| (0o200 >>> s.pi_enc)
           PIR := s.PIR &&& ((0o200 >>> s.pi_enc) ^^^ 0o377) }

/-- The search loop of `restore_pi_hold` (lines 665-674): scan the masks
0100, 0040, ..., 0001 and return the first one present in `pih`
(0 when `pih` has no bit there, in which case the C loop clears nothing). -/
def restore_find : Nat → Nat → Nat → Nat
  | 0, _, _ => 0
  | fuel + 1, lvl, pih =>
    if lvl &&& pih ≠ 0 then lvl else restore_find fuel (lvl >>> 1) pih

/-- Transcription of `restore_pi_hold` (lines 658-678): when the PI system is
enabled, clear the highest-priority held level from both `PIH` and `PIR`,
re-run `check_apr_irq` if the APR device still has a request posted, and
assert `pi_pending`. -/
def restore_pi_hold (s : KAState) : KAState :=
  if ¬s.pi_enable then s
  else
    let m := restore_find 7 0o100 s.PIH
    let s1 := { s with PIR := s.PIR &&& (m ^^^ 0o177)
                       PIH := s.PIH &&& (m ^^^ 0o177) }
    let s2 := if s1.dev_irq 0 ≠ 0 then check_apr_irq s1 else s1
    { s2 with pi_pending := true }

/-- Transcription of the CONO case of `dev_pi` (lines 906-930): the PI reset
bit clears PIR, PIH and PIE and the master enable; other bits turn the master
enable on or off, clear or set PIE levels, and post program requests into
PIR (asserting `pi_pending`).  The parity-interrupt bits are modelled
likewise. -/
def dev_pi_cono (data : Nat) (s : KAState) : KAState :=
  let s := if data &&& 0o10000 ≠ 0 then
             { s with PIR := 0, PIH := 0, PIE := 0, pi_enable := false }
           else s
  let s := if data &&& 0o200 ≠ 0 then { s with pi_enable := true } else s
  let s := if data &&& 0o400 ≠ 0 then { s with pi_enable := false } else s
  let s := if data &&& 0o1000 ≠ 0 then
             { s with PIE := s.PIE &&& ((data &&& 0o177) ^^^ 0o177) }
           else s
  let s := if data &&& 0o2000 ≠ 0 then { s with PIE := s.PIE ||| (data &&& 0o177) } else s
  let s := if data &&& 0o4000 ≠ 0 then
             { s with PIR := s.PIR ||| (data &&& 0o177), pi_pending := true }
           else s
  s

/-- Transcription of the parts of `cpu_reset` (lines 2917-2939) that touch
the state modelled here: the protection registers, trap flags, the whole PI
state and all 128 device request entries are cleared. -/
def cpu_reset (s : KAState) : KAState :=
  { s with Pl := 0, Ph := 0, Rl := 0, Rh := 0, Pflag := false
           push_ovf := false, mem_prot := false, nxm_flag := false, clk_flg := false
           PIR := 0, PIH := 0, PIE := 0, pi_enable := false
           pi_pending := false, pi_enc := 0, apr_irq := 0
           ov_irq := false, fov_irq := false, clk_en := false, clk_irq := 0
           dev_irq := fun _ => 0 }

/-- Operand-fetch flag bits for the `opflags` table (lines 296-307). -/
def FCE : Nat := 0o1

/-- Fetch for read-modify-write. -/
def FCEPSE : Nat := 0o2

/-- Store AR into memory. -/
def SCE : Nat := 0o4

/-- Fetch AC into AR. -/
def FAC : Nat := 0o10

/-- Fetch AC+1 into MQ. -/
def FAC2 : Nat := 0o20

/-- Store AR into AC. -/
def SAC : Nat := 0o40

/-- Store AR into AC when the AC field is non-zero. -/
def SACZ : Nat := 0o100

/-- Store MQ into AC+1. -/
def SAC2 : Nat := 0o200

/-- Swap the halves of AR. -/
def SWAR : Nat := 0o1000

/-- Load AC into BR. -/
def FBR : Nat := 0o2000

/-- Load MB into BR. -/
def FMB : Nat := 0o4000

set_option maxRecDepth 4000 in
/-- Transcription of the 512-entry `opflags` table (lines 309-569) in the
KA10 configuration (`KI = 0`, so the DFAD..FLTR block at opcodes 0110-0127
is all zero).  Entry `i` is the operand-fetch flag word of opcode `i`.  The
C array is embedded as a list read through positional lookup. -/
def opflags : List Nat :=
  /- 0000-0077: UUO and LUUO/MUUO slots -/
  0 :: 0 :: 0 :: 0 :: 0 :: 0 :: 0 :: 0 :: 0 :: 0 :: 0 :: 0 :: 0 :: 0 :: 0 :: 0 ::
  0 :: 0 :: 0 :: 0 :: 0 :: 0 :: 0 :: 0 :: 0 :: 0 :: 0 :: 0 :: 0 :: 0 :: 0 :: 0 ::
  0 :: 0 :: 0 :: 0 :: 0 :: 0 :: 0 :: 0 :: 0 :: 0 :: 0 :: 0 :: 0 :: 0 :: 0 :: 0 ::
  0 :: 0 :: 0 :: 0 :: 0 :: 0 :: 0 :: 0 :: 0 :: 0 :: 0 :: 0 :: 0 :: 0 :: 0 :: 0 ::
  /- 0100-0107: UJEN, UUO101, GFAD, GFSB, JSYS, ADJSP, GFMP, GFDV -/
  0 :: 0 :: 0 :: 0 :: 0 :: 0 :: 0 :: 0 ::
  /- 0110-0127: KA10 build, all unimplemented -/
  0 :: 0 :: 0 :: 0 :: 0 :: 0 :: 0 :: 0 :: 0 :: 0 :: 0 :: 0 :: 0 :: 0 :: 0 :: 0 ::
  /- 0130-0137: UFA, DFN, FSC, IBP, ILDB, LDB, IDPB, DPB -/
  (FCE ||| FBR) :: (FCE ||| FAC) :: (FAC ||| SAC) :: FCEPSE ::
  FCEPSE :: FCE :: FCEPSE :: FCE ::
  /- 0140-0147: FAD family -/
  (SAC ||| FBR ||| FCE) :: (SAC ||| SAC2 ||| FBR ||| FCE) :: (FCEPSE ||| FBR) :: (SAC ||| FBR ||| FCEPSE) ::
  (SAC ||| FBR ||| FCE) :: (SAC ||| FBR ||| SWAR) :: (FCEPSE ||| FBR) :: (SAC ||| FBR ||| FCEPSE) ::
  /- 0150-0157: FSB family -/
  (SAC ||| FBR ||| FCE) :: (SAC ||| SAC2 ||| FBR ||| FCE) :: (FCEPSE ||| FBR) :: (SAC ||| FBR ||| FCEPSE) ::
  (SAC ||| FBR ||| FCE) :: (SAC ||| FBR ||| SWAR) :: (FCEPSE ||| FBR) :: (SAC ||| FBR ||| FCEPSE) ::
  /- 0160-0167: FMP family -/
  (SAC ||| FBR ||| FCE) :: (SAC ||| SAC2 ||| FBR ||| FCE) :: (FCEPSE ||| FBR) :: (SAC ||| FBR ||| FCEPSE) ::
  (SAC ||| FBR ||| FCE) :: (SAC ||| FBR ||| SWAR) :: (FCEPSE ||| FBR) :: (SAC ||| FBR ||| FCEPSE) ::
  /- 0170-0177: FDV family -/
  (SAC ||| FBR ||| FCE) :: (FAC2 ||| SAC2 ||| SAC ||| FBR ||| FCE) :: (FCEPSE ||| FBR) :: (SAC ||| FBR ||| FCEPSE) ::
  (SAC ||| FBR ||| FCE) :: (SAC ||| FBR ||| SWAR) :: (FCEPSE ||| FBR) :: (SAC ||| FBR ||| FCEPSE) ::
  /- 0200-0217: MOVE, MOVS, MOVN, MOVM rows -/
  (SAC ||| FCE) :: SAC :: (FAC ||| SCE) :: (SACZ ||| FCEPSE) ::
  (SWAR ||| SAC ||| FCE) :: (SWAR ||| SAC) :: (SWAR ||| FAC ||| SCE) :: (SWAR ||| SACZ ||| FCEPSE) ::
  (SAC ||| FCE) :: SAC :: (FAC ||| SCE) :: (SACZ ||| FCEPSE) ::
  (SAC ||| FCE) :: SAC :: (FAC ||| SCE) :: (SACZ ||| FCEPSE) ::
  /- 0220-0227: IMUL, MUL rows -/
  (SAC ||| FCE ||| FBR) :: (SAC ||| FBR) :: (FCEPSE ||| FBR) :: (SAC ||| FCEPSE ||| FBR) ::
  (SAC2 ||| SAC ||| FCE ||| FBR) :: (SAC2 ||| SAC ||| FBR) :: (FCEPSE ||| FBR) :: (SAC2 ||| SAC ||| FCEPSE ||| FBR) ::
  /- 0230-0237: IDIV, DIV rows -/
  (SAC2 ||| SAC ||| FCE ||| FAC) :: (SAC2 ||| SAC ||| FAC) :: (FCEPSE ||| FAC) :: (SAC2 ||| SAC ||| FCEPSE ||| FAC) ::
  (SAC2 ||| SAC ||| FCE ||| FAC) :: (SAC2 ||| SAC ||| FAC) :: (FCEPSE ||| FAC) :: (SAC2 ||| SAC ||| FCEPSE ||| FAC) ::
  /- 0240-0247: ASH, ROT, LSH, JFFO, ASHC, ROTC, LSHC, UUO247 -/
  (FAC ||| SAC) :: (FAC ||| SAC) :: (FAC ||| SAC) :: FAC ::
  (FAC ||| SAC ||| SAC2 ||| FAC2) :: (FAC ||| SAC ||| SAC2 ||| FAC2) :: (FAC ||| SAC ||| SAC2 ||| FAC2) :: 0 ::
  /- 0250-0257: EXCH, BLT, AOBJP, AOBJN, JRST, JFCL, XCT, MAP -/
  (FAC ||| FCEPSE) :: FAC :: (FAC ||| SAC) :: (FAC ||| SAC) ::
  0 :: 0 :: 0 :: SAC ::
  /- 0260-0267: PUSHJ, PUSH, POP, POPJ, JSR, JSP, JSA, JRA -/
  (FAC ||| SAC) :: (FAC ||| FCE ||| SAC) :: (FAC ||| SAC) :: (FAC ||| SAC) ::
  SCE :: SAC :: (FBR ||| SCE) :: 0 ::
  /- 0270-0277: ADD, SUB rows -/
  (FBR ||| SAC ||| FCE) :: (FBR ||| SAC) :: (FBR ||| FCEPSE) :: (FBR ||| SAC ||| FCEPSE) ::
  (FBR ||| SAC ||| FCE) :: (FBR ||| SAC) :: (FBR ||| FCEPSE) :: (FBR ||| SAC ||| FCEPSE) ::
  /- 0300-0307: CAI row -/
  0 :: 0 :: 0 :: 0 :: 0 :: 0 :: 0 :: 0 ::
  /- 0310-0317: CAM row -/
  FCE :: FCE :: FCE :: FCE :: FCE :: FCE :: FCE :: FCE ::
  /- 0320-0327: JUMP row -/
  FAC :: FAC :: FAC :: FAC :: FAC :: FAC :: FAC :: FAC ::
  /- 0330-0337: SKIP row -/
  (SACZ ||| FCE) :: (SACZ ||| FCE) :: (SACZ ||| FCE) :: (SACZ ||| FCE) ::
  (SACZ ||| FCE) :: (SACZ ||| FCE) :: (SACZ ||| FCE) :: (SACZ ||| FCE) ::
  /- 0340-0347: AOJ row -/
  (SAC ||| FAC) :: (SAC ||| FAC) :: (SAC ||| FAC) :: (SAC ||| FAC) ::
  (SAC ||| FAC) :: (SAC ||| FAC) :: (SAC ||| FAC) :: (SAC ||| FAC) ::
  /- 0350-0357: AOS row -/
  (SACZ ||| FCEPSE) :: (SACZ ||| FCEPSE) :: (SACZ ||| FCEPSE) :: (SACZ ||| FCEPSE) ::
  (SACZ ||| FCEPSE) :: (SACZ ||| FCEPSE) :: (SACZ ||| FCEPSE) :: (SACZ ||| FCEPSE) ::
  /- 0360-0367: SOJ row -/
  (SAC ||| FAC) :: (SAC ||| FAC) :: (SAC ||| FAC) :: (SAC ||| FAC) ::
  (SAC ||| FAC) :: (SAC ||| FAC) :: (SAC ||| FAC) :: (SAC ||| FAC) ::
  /- 0370-0377: SOS row -/
  (SACZ ||| FCEPSE) :: (SACZ ||| FCEPSE) :: (SACZ ||| FCEPSE) :: (SACZ ||| FCEPSE) ::
  (SACZ ||| FCEPSE) :: (SACZ ||| FCEPSE) :: (SACZ ||| FCEPSE) :: (SACZ ||| FCEPSE) ::
  /- 0400-0403: SETZ row -/
  (FBR ||| SAC) :: (FBR ||| SAC) :: (FBR ||| SCE) :: (FBR ||| SAC ||| SCE) ::
  /- 0404-0407: AND row -/
  (FBR ||| SAC ||| FCE) :: (FBR ||| SAC) :: (FBR ||| FCEPSE) :: (FBR ||| SAC ||| FCEPSE) ::
  /- 0410-0413: ANDCA row -/
  (FBR ||| SAC ||| FCE) :: (FBR ||| SAC) :: (FBR ||| FCEPSE) :: (FBR ||| SAC ||| FCEPSE) ::
  /- 0414-0417: SETM row -/
  (FBR ||| SAC ||| FCE) :: (FBR ||| SAC) :: FBR :: (FBR ||| SAC ||| FCE) ::
  /- 0420-0423: ANDCM row -/
  (FBR ||| SAC ||| FCE) :: (FBR ||| SAC) :: (FBR ||| FCEPSE) :: (FBR ||| SAC ||| FCEPSE) ::
  /- 0424-0427: SETA row -/
  (FBR ||| SAC) :: (FBR ||| SAC) :: (FBR ||| SCE) :: (FBR ||| SAC ||| SCE) ::
  /- 0430-0433: XOR row -/
  (FBR ||| SAC ||| FCE) :: (FBR ||| SAC) :: (FBR ||| FCEPSE) :: (FBR ||| SAC ||| FCEPSE) ::
  /- 0434-0437: IOR row -/
  (FBR ||| SAC ||| FCE) :: (FBR ||| SAC) :: (FBR ||| FCEPSE) :: (FBR ||| SAC ||| FCEPSE) ::
  /- 0440-0443: ANDCB row -/
  (FBR ||| SAC ||| FCE) :: (FBR ||| SAC) :: (FBR ||| FCEPSE) :: (FBR ||| SAC ||| FCEPSE) ::
  /- 0444-0447: EQV row -/
  (FBR ||| SAC ||| FCE) :: (FBR ||| SAC) :: (FBR ||| FCEPSE) :: (FBR ||| SAC ||| FCEPSE) ::
  /- 0450-0453: SETCA row -/
  (FBR ||| SAC) :: (FBR ||| SAC) :: (FBR ||| SCE) :: (FBR ||| SAC ||| SCE) ::
  /- 0454-0457: ORCA row -/
  (FBR ||| SAC ||| FCE) :: (FBR ||| SAC) :: (FBR ||| FCEPSE) :: (FBR ||| SAC ||| FCEPSE) ::
  /- 0460-0463: SETCM row -/
  (FBR ||| SAC ||| FCE) :: (FBR ||| SAC) :: (FBR ||| FCEPSE) :: (FBR ||| SAC ||| FCEPSE) ::
  /- 0464-0467: ORCM row -/
  (FBR ||| SAC ||| FCE) :: (FBR ||| SAC) :: (FBR ||| FCEPSE) :: (FBR ||| SAC ||| FCEPSE) ::
  /- 0470-0473: ORCB row -/
  (FBR ||| SAC ||| FCE) :: (FBR ||| SAC) :: (FBR ||| FCEPSE) :: (FBR ||| SAC ||| FCEPSE) ::
  /- 0474-0477: SETO row -/
  (FBR ||| SAC) :: (FBR ||| SAC) :: (FBR ||| SCE) :: (FBR ||| SAC ||| SCE) ::
  /- 0500-0503: HLL row -/
  (FBR ||| SAC ||| FCE) :: (FBR ||| SAC) :: (FAC ||| FMB ||| FCEPSE) :: (FMB ||| SACZ ||| FCEPSE) ::
  /- 0504-0507: HRL row -/
  (SWAR ||| FBR ||| SAC ||| FCE) :: (SWAR ||| FBR ||| SAC) ::
  (SWAR ||| FAC ||| FMB ||| FCEPSE) :: (SWAR ||| FMB ||| SACZ ||| FCEPSE) ::
  /- 0510-0513: HLLZ row -/
  (FBR ||| SAC ||| FCE) :: (FBR ||| SAC) :: (FAC ||| FMB ||| FCEPSE) :: (FMB ||| SACZ ||| FCEPSE) ::
  /- 0514-0517: HRLZ row -/
  (SWAR ||| FBR ||| SAC ||| FCE) :: (SWAR ||| FBR ||| SAC) ::
  (SWAR ||| FAC ||| FMB ||| FCEPSE) :: (SWAR ||| FMB ||| SACZ ||| FCEPSE) ::
  /- 0520-0523: HLLO row -/
  (FBR ||| SAC ||| FCE) :: (FBR ||| SAC) :: (FAC ||| FMB ||| FCEPSE) :: (FMB ||| SACZ ||| FCEPSE) ::
  /- 0524-0527: HRLO row -/
  (SWAR ||| FBR ||| SAC ||| FCE) :: (SWAR ||| FBR ||| SAC) ::
  (SWAR ||| FAC ||| FMB ||| FCEPSE) :: (SWAR ||| FMB ||| SACZ ||| FCEPSE) ::
  /- 0530-0533: HLLE row -/
  (FBR ||| SAC ||| FCE) :: (FBR ||| SAC) :: (FAC ||| FMB ||| FCEPSE) :: (FMB ||| SACZ ||| FCEPSE) ::
  /- 0534-0537: HRLE row -/
  (SWAR ||| FBR ||| SAC ||| FCE) :: (SWAR ||| FBR ||| SAC) ::
  (SWAR ||| FAC ||| FMB ||| FCEPSE) :: (SWAR ||| FMB ||| SACZ ||| FCEPSE) ::
  /- 0540-0543: HRR row -/
  (FBR ||| SAC ||| FCE) :: (FBR ||| SAC) :: (FAC ||| FMB ||| FCEPSE) :: (FMB ||| SACZ ||| FCEPSE) ::
  /- 0544-0547: HLR row -/
  (SWAR ||| FBR ||| SAC ||| FCE) :: (SWAR ||| FBR ||| SAC) ::
  (SWAR ||| FAC ||| FMB ||| FCEPSE) :: (SWAR ||| FMB ||| SACZ ||| FCEPSE) ::
  /- 0550-0553: HRRZ row -/
  (FBR ||| SAC ||| FCE) :: (FBR ||| SAC) :: (FAC ||| FMB ||| FCEPSE) :: (FMB ||| SACZ ||| FCEPSE) ::
  /- 0554-0557: HLRZ row -/
  (SWAR ||| FBR ||| SAC ||| FCE) :: (SWAR ||| FBR ||| SAC) ::
  (SWAR ||| FAC ||| FMB ||| FCEPSE) :: (SWAR ||| FMB ||| SACZ ||| FCEPSE) ::
  /- 0560-0563: HRRO row -/
  (FBR ||| SAC ||| FCE) :: (FBR ||| SAC) :: (FAC ||| FMB ||| FCEPSE) :: (FMB ||| SACZ ||| FCEPSE) ::
  /- 0564-0567: HLRO row -/
  (SWAR ||| FBR ||| SAC ||| FCE) :: (SWAR ||| FBR ||| SAC) ::
  (SWAR ||| FAC ||| FMB ||| FCEPSE) :: (SWAR ||| FMB ||| SACZ ||| FCEPSE) ::
  /- 0570-0573: HRRE row -/
  (FBR ||| SAC ||| FCE) :: (FBR ||| SAC) :: (FAC ||| FMB ||| FCEPSE) :: (FMB ||| SACZ ||| FCEPSE) ::
  /- 0574-0577: HLRE row -/
  (SWAR ||| FBR ||| SAC ||| FCE) :: (SWAR ||| FBR ||| SAC) ::
  (SWAR ||| FAC ||| FMB ||| FCEPSE) :: (SWAR ||| FMB ||| SACZ ||| FCEPSE) ::
  /- 0600-0607: TRN, TLN, TRNE, TLNE, TRNA, TLNA, TRNN, TLNN -/
  FBR :: (FBR ||| SWAR) :: FBR :: (FBR ||| SWAR) ::
  FBR :: (FBR ||| SWAR) :: FBR :: (FBR ||| SWAR) ::
  /- 0610-0617: TDN, TSN, TDNE, TSNE, TDNA, TSNA, TDNN, TSNN -/
  (FBR ||| FCE) :: (FBR ||| SWAR ||| FCE) :: (FBR ||| FCE) :: (FBR ||| SWAR ||| FCE) ::
  (FBR ||| FCE) :: (FBR ||| SWAR ||| FCE) :: (FBR ||| FCE) :: (FBR ||| SWAR ||| FCE) ::
  /- 0620-0627: TRZ, TLZ, TRZE, TLZE, TRZA, TLZA, TRZN, TLZN -/
  (FBR ||| SAC) :: (FBR ||| SAC ||| SWAR) :: (FBR ||| SAC) :: (FBR ||| SAC ||| SWAR) ::
  (FBR ||| SAC) :: (FBR ||| SAC ||| SWAR) :: (FBR ||| SAC) :: (FBR ||| SAC ||| SWAR) ::
  /- 0630-0637: TDZ, TSZ, TDZE, TSZE, TDZA, TSZA, TDZN, TSZN -/
  (FBR ||| SAC ||| FCE) :: (FBR ||| SAC ||| SWAR ||| FCE) :: (FBR ||| SAC ||| FCE) :: (FBR ||| SAC ||| SWAR ||| FCE) ::
  (FBR ||| SAC ||| FCE) :: (FBR ||| SAC ||| SWAR ||| FCE) :: (FBR ||| SAC ||| FCE) :: (FBR ||| SAC ||| SWAR ||| FCE) ::
  /- 0640-0647: TRC, TLC, TRCE, TLCE, TRCA, TLCA, TRCN, TLCN -/
  (FBR ||| SAC) :: (FBR ||| SAC ||| SWAR) :: (FBR ||| SAC) :: (FBR ||| SAC ||| SWAR) ::
  (FBR ||| SAC) :: (FBR ||| SAC ||| SWAR) :: (FBR ||| SAC) :: (FBR ||| SAC ||| SWAR) ::
  /- 0650-0657: TDC, TSC, TDCE, TSCE, TDCA, TSCA, TDCN, TSCN -/
  (FBR ||| SAC ||| FCE) :: (FBR ||| SAC ||| SWAR ||| FCE) :: (FBR ||| SAC ||| FCE) :: (FBR ||| SAC ||| SWAR ||| FCE) ::
  (FBR ||| SAC ||| FCE) :: (FBR ||| SAC ||| SWAR ||| FCE) :: (FBR ||| SAC ||| FCE) :: (FBR ||| SAC ||| SWAR ||| FCE) ::
  /- 0660-0667: TRO, TLO, TROE, TLOE, TROA, TLOA, TRON, TLON -/
  (FBR ||| SAC) :: (FBR ||| SAC ||| SWAR) :: (FBR ||| SAC) :: (FBR ||| SAC ||| SWAR) ::
  (FBR ||| SAC) :: (FBR ||| SAC ||| SWAR) :: (FBR ||| SAC) :: (FBR ||| SAC ||| SWAR) ::
  /- 0670-0677: TDO, TSO, TDOE, TSOE, TDOA, TSOA, TDON, TSON -/
  (FBR ||| SAC ||| FCE) :: (FBR ||| SWAR ||| SAC ||| FCE) :: (FBR ||| SAC ||| FCE) :: (FBR ||| SAC ||| SWAR ||| FCE) ::
  (FBR ||| SAC ||| FCE) :: (FBR ||| SWAR ||| SAC ||| FCE) :: (FBR ||| SAC ||| FCE) :: (FBR ||| SAC ||| SWAR ||| FCE) ::
  /- 0700-0777: IOT instructions -/
  0 :: 0 :: 0 :: 0 :: 0 :: 0 :: 0 :: 0 :: 0 :: 0 :: 0 :: 0 :: 0 :: 0 :: 0 :: 0 ::
  0 :: 0 :: 0 :: 0 :: 0 :: 0 :: 0 :: 0 :: 0 :: 0 :: 0 :: 0 :: 0 :: 0 :: 0 :: 0 ::
  0 :: 0 :: 0 :: 0 :: 0 :: 0 :: 0 :: 0 :: 0 :: 0 :: 0 :: 0 :: 0 :: 0 :: 0 :: 0 ::
  0 :: 0 :: 0 :: 0 :: 0 :: 0 :: 0 :: 0 :: 0 :: 0 :: 0 :: 0 :: 0 :: 0 :: 0 :: 0 ::
  []

/-- Flag word of opcode `ir`: `opflags[IR]` (line 1121). -/
def opflag (ir : Nat) : Nat := opflags.getD ir 0

/-- Transcription of the store-back epilogue of `sim_instr`
(lines 2845-2854): when `sac_inh` is clear, SCE or FCEPSE writes AR back to
memory at AB through `Mem_write` (a failure there jumps to `last`, skipping
the register stores), SAC (or SACZ with a non-zero AC field) stores AR into
the accumulator, and SAC2 stores MQ into AC+1. -/
def writeback_regs (fl : Nat) (sac_inh : Bool) (s1 : KAState) : KAState :=
  let s2 := if ¬sac_inh ∧ (fl &&& SAC ≠ 0 ∨ (fl &&& SACZ ≠ 0 ∧ s1.AC ≠ 0)) then
              { s1 with FM := fun i => if i = s1.AC &&& 0o17 then s1.AR else s1.FM i }
            else s1
  if ¬sac_inh ∧ fl &&& SAC2 ≠ 0 then
    { s2 with FM := fun i => if i = (s2.AC + 1) &&& 0o17 then s2.MQ else s2.FM i }
  else s2

/-- Memory half of the store-back epilogue (lines 2845-2849): SCE or FCEPSE
writes AR back through `Mem_write`, and a failure there jumps to `last`,
skipping the register stores of `writeback_regs`. -/
def writeback (fl : Nat) (sac_inh : Bool) (s : KAState) : KAState :=
  if ¬sac_inh ∧ fl &&& (SCE ||| FCEPSE) ≠ 0 then
    match Mem_write false { s with MB := s.AR } with
    | (true, s1) => s1
    | (false, s1) => writeback_regs fl sac_inh s1
  else writeback_regs fl sac_inh s

/-- Execution of a MOVE instruction (opcode 0200, flag word `SAC ||| FCE`)
through the operand-fetch prologue (lines 1199-1206), the empty body
(`case 0200`), and the store-back epilogue: a failed memory read goes
straight to `last`, leaving the accumulator untouched. -/
def exec_move (s : KAState) : KAState :=
  match Mem_read false s with
  | (true, s1) => s1
  | (false, s1) => writeback (SAC ||| FCE) false { s1 with AR := s1.MB }

/-- Execution of a SKIP instruction (opcode 0330, flag word `SACZ ||| FCE`):
operand fetch, the `case 0330` body computing the test value and the
conditional PC bump of `skip_op` (lines 2618-2664), then the store-back
epilogue that writes the accumulator when the AC field is non-zero. -/
def exec_skip (s : KAState) : KAState :=
  match Mem_read false s with
  | (true, s1) => s1
  | (false, s1) =>
    let s2 := { s1 with AR := s1.MB }
    let AD := s2.AR
    let f0 := if AD &&& SMASK ≠ 0 then 1 else 0
    let AD1 := AD &&& FMASK
    let s3 := { s2 with AR := AD1 }
    let f1 := (f0 ||| (if AD1 = 0 then 2 else 0)) &&& 0o330
    let s4 := if (0o330 &&& 0o4 ≠ 0) = (f1 = 0) then
                { s3 with PC := (s3.PC + 1) &&& RMASK }
              else s3
    writeback (SACZ ||| FCE) false s4

/-- Execution of an EXCH instruction (opcode 0250, flag word
`FAC ||| FCEPSE`): operand fetch loads memory into AR and moves it to BR
while AR receives the accumulator, the body stores BR into the accumulator
(line 2302), and the FCEPSE store-back writes AR to memory. -/
def exec_exch (s : KAState) : KAState :=
  match Mem_read false s with
  | (true, s1) => s1
  | (false, s1) =>
    let s2 := { s1 with AR := s1.MB }
    let s3 := { s2 with BR := s2.AR, AR := s2.FM (s2.AC &&& 0o17) }
    let s4 := { s3 with FM := fun i => if i = s3.AC &&& 0o17 then s3.BR else s3.FM i }
    writeback (FAC ||| FCEPSE) false s4

/-- A fixed concrete state used to instantiate witness theorems. -/
def s0 : KAState :=
  { M := fun _ => 0, FM := fun _ => 0, dev_irq := fun _ => 0 }

/-- Concrete executive-mode state whose address bus holds exactly the
configured memory size: the first address beyond the configured memory. -/
def c3state : KAState :=
  { s0 with M := fun _ => 7, AB := 0o40, memsize := 0o40, apr_irq := 1 }

/-- Concrete user-mode state for the protection-denial scenario of the spec:
`Pl = 0`, one-segment mode, `MOVE 1,400000`. -/
def c5state : KAState :=
  { s0 with flags := USER, AB := 0o400000, AC := 1, apr_irq := 1,
            FM := fun _ => 9 }

/-- Concrete user-mode state for the write-protect side of the denial claim:
two-segment mode with `Pflag` set, so the high segment is readable but a
write to address 0400000 fails the `(!Pflag & wr) == wr` test even though
the address is within `(Ph << 10) | 1777`. -/
def c5wstate : KAState :=
  { s0 with flags := USER, AB := 0o400000, AC := 1, apr_irq := 1,
            FM := fun _ => 9, twoseg := true, Pflag := true, Ph := 0o777 }

/-- Concrete executive-mode state for the frame-effect claim: AC field 1,
effective address 0100 holding 5, fast registers holding 7. -/
def c2state : KAState :=
  { s0 with AC := 1, AB := 0o100, memsize := 0o1000,
            M := fun a => if a = 0o100 then 5 else 0, FM := fun _ => 7 }

/-- States reachable through the operations that write the device
interrupt-request array: reset, `set_interrupt` and `clr_interrupt`. -/
inductive Reach : KAState → Prop where
  | reset : ∀ s, Reach (cpu_reset s)
  | step_set : ∀ {s} (d l : Nat), Reach s → Reach (set_interrupt d l s)
  | step_clr : ∀ {s} (d : Nat), Reach s → Reach (clr_interrupt d s)

/-! Generic bit-arithmetic helper lemmas. -/

/-- Xor with an all-ones mask is subtraction from the mask. -/
theorem xor_ones_of_lt (n : Nat) : ∀ x, x < 2 ^ n → x ^^^ (2 ^ n - 1) = 2 ^ n - 1 - x := by
  induction n with
  | zero =>
    intro x hx
    have hx0 : x = 0 := by omega
    subst hx0
    rfl
  | succ n ih =>
    intro x hx
    have hd := Nat.bit_testBit_zero_shiftRight_one x
    have hones : 2 ^ (n + 1) - 1 = Nat.bit true (2 ^ n - 1) := by
      rw [Nat.bit_val]
      have h1 : 1 ≤ 2 ^ n := Nat.one_le_two_pow
      simp only [Bool.toNat_true]
      omega
    have hm : x >>> 1 = x / 2 := Nat.shiftRight_eq_div_pow x 1 ▸ by norm_num
    have hmlt : x >>> 1 < 2 ^ n := by
      rw [hm]
      have : 2 ^ (n + 1) = 2 ^ n * 2 := Nat.pow_succ 2 n
      omega
    calc x ^^^ (2 ^ (n + 1) - 1)
        = Nat.bit (x.testBit 0) (x >>> 1) ^^^ Nat.bit true (2 ^ n - 1) := by rw [hd, ← hones]
      _ = Nat.bit (x.testBit 0 != true) ((x >>> 1) ^^^ (2 ^ n - 1)) := Nat.xor_bit _ _ _ _
      _ = Nat.bit (x.testBit 0 != true) (2 ^ n - 1 - x >>> 1) := by rw [ih _ hmlt]
      _ = 2 ^ (n + 1) - 1 - x := by
            rw [Nat.bit_val]
            have hxv := Nat.bit_val (x.testBit 0) (x >>> 1)
            rw [hd] at hxv
            have h1 : 1 ≤ 2 ^ n := Nat.one_le_two_pow
            have h2 : 2 ^ (n + 1) = 2 ^ n * 2 := Nat.pow_succ 2 n
            cases hb : x.testBit 0 <;> rw [hb] at hxv <;>
              simp only [Bool.toNat_true, Bool.toNat_false, Bool.bne_true,
                Bool.not_false, Bool.not_true] at hxv ⊢ <;>
              omega

/-- Disjoint or is addition: a low part below `2 ^ n` or-ed with a shifted
high part. -/
theorem lor_shiftLeft_eq_add {b : Nat} (a n : Nat) (hb : b < 2 ^ n) :
    b ||| (a <<< n) = 2 ^ n * a + b := by
  apply Nat.eq_of_testBit_eq
  intro j
  rw [Nat.testBit_mul_pow_two_add a hb j, Nat.testBit_or, Nat.testBit_shiftLeft]
  by_cases hj : j < n
  · have : ¬(n ≤ j) := by omega
    simp [hj, this]
  · have hnj : n ≤ j := by omega
    have hbj : b.testBit j = false :=
      Nat.testBit_lt_two_pow (Nat.lt_of_lt_of_le hb (Nat.pow_le_pow_right (by norm_num) hnj))
    simp [hj, hnj, hbj]

/-- Testing a single bit of a bounded value is a magnitude comparison. -/
theorem and_two_pow_ne_zero_iff {v k : Nat} (h : v < 2 ^ (k + 1)) :
    v &&& 2 ^ k ≠ 0 ↔ 2 ^ k ≤ v := by
  rw [Nat.and_two_pow]
  constructor
  · intro hne
    have hb : v.testBit k = true := by
      cases hb : v.testBit k
      · rw [hb] at hne
        simp at hne
      · rfl
    exact Nat.testBit_implies_ge hb
  · intro hge
    have hv : v = 2 ^ k * 1 + (v - 2 ^ k) := by omega
    have hlt : v - 2 ^ k < 2 ^ k := by
      have : 2 ^ (k + 1) = 2 ^ k * 2 := Nat.pow_succ 2 k
      omega
    have hb : v.testBit k = true := by
      rw [hv, Nat.testBit_mul_pow_two_add 1 hlt k]
      simp
    rw [hb]
    have : (0:Nat) < 2 ^ k := Nat.pos_pow_of_pos k (by norm_num)
    simp


/-- Or-ing a flag bit into a word and then testing a disjoint bit ignores the
or. -/
theorem or_and_disjoint (x b c : Nat) (h : c &&& b = 0) : (x ||| c) &&& b = x &&& b := by
  rw [Nat.and_distrib_right, h, Nat.or_zero]

/-- Or-ing a flag bit in makes its own test non-zero. -/
theorem or_and_self_ne_zero (x b : Nat) (hb : b ≠ 0) : (x ||| b) &&& b ≠ 0 := by
  intro h
  apply hb
  apply Nat.eq_of_testBit_eq
  intro i
  have h2 := congrArg (fun v => v.testBit i) h
  simp only [Nat.testBit_and, Nat.testBit_or, Nat.zero_testBit] at h2
  simp only [Nat.zero_testBit]
  cases hx : x.testBit i <;> cases hbi : b.testBit i <;> simp_all

/-- Masking a level to three bits is reduction modulo 8. -/
theorem and_seven_eq_mod (l : Nat) : l &&& 0o7 = l % 8 := by
  have h : (0o7 : Nat) = 2 ^ 3 - 1 := by norm_num
  rw [h, Nat.and_pow_two_sub_one_eq_mod]

/-- The single request bit posted for a level in 1..7 is non-zero. -/
theorem request_bit_ne_zero (l : Nat) (h1 : 1 ≤ l) (h2 : l ≤ 7) : 0o200 >>> l ≠ 0 := by
  interval_cases l <;> decide

/-- Claim C9: for every device number and every interrupt level 1-7, calling
`set_interrupt dev level` sets the bit `0200 >> level` in the device-request
entry for `dev` (index `dev >> 2`) and asserts `pi_pending`. -/
theorem C9_set_interrupt_posts (dev level : Nat) (s : KAState)
    (h1 : 1 ≤ level) (h2 : level ≤ 7) :
    (set_interrupt dev level s).dev_irq (dev >>> 2) &&& (0o200 >>> level) ≠ 0 ∧
    (set_interrupt dev level s).pi_pending = true := by
  have hm : level &&& 0o7 = level := by
    rw [and_seven_eq_mod]
    omega
  have hne : level ≠ 0 := by omega
  unfold set_interrupt
  rw [hm, if_pos hne]
  refine ⟨?_, rfl⟩
  show (if dev >>> 2 = dev >>> 2 then 0o200 >>> level else s.dev_irq (dev >>> 2)) &&&
      (0o200 >>> level) ≠ 0
  rw [if_pos rfl, Nat.and_self]
  exact request_bit_ne_zero level h1 h2

/-- Witness for C9 at device 4, level 3. -/
theorem C9_witness :
    1 ≤ 3 ∧ 3 ≤ 7 ∧
    ((set_interrupt 4 3 s0).dev_irq (4 >>> 2) &&& (0o200 >>> 3) ≠ 0 ∧
     (set_interrupt 4 3 s0).pi_pending = true) :=
  ⟨by decide, by decide, C9_set_interrupt_posts 4 3 s0 (by decide) (by decide)⟩

/-- Every posted request bit is a power of two, hence one-hot. -/
theorem request_bit_one_hot (l : Nat) (h1 : 1 ≤ l) (h2 : l ≤ 7) :
    (0o200 >>> l) &&& (0o200 >>> l - 1) = 0 := by
  interval_cases l <;> decide

/-- Claim C10: every entry of `dev_irq` holds at most one set bit in every
state reachable through reset, `set_interrupt` and `clr_interrupt`;
`set_interrupt` with a level divisible by 8 is a no-op; with any other level
it replaces the addressed entry by the single bit `0200 >> (level mod 8)`,
leaves all other entries alone and asserts `pi_pending`; `clr_interrupt`
zeroes the addressed entry; and `cpu_reset` zeroes the whole array. -/
theorem C10_dev_irq_one_hot :
    (∀ s, Reach s → ∀ i, s.dev_irq i &&& (s.dev_irq i - 1) = 0) ∧
    (∀ s d l, l % 8 = 0 → set_interrupt d l s = s) ∧
    (∀ s d l, l % 8 ≠ 0 →
      (set_interrupt d l s).dev_irq (d >>> 2) = 0o200 >>> (l % 8) ∧
      (set_interrupt d l s).pi_pending = true ∧
      ∀ j, j ≠ d >>> 2 → (set_interrupt d l s).dev_irq j = s.dev_irq j) ∧
    (∀ s d, (clr_interrupt d s).dev_irq (d >>> 2) = 0) ∧
    (∀ s i, (cpu_reset s).dev_irq i = 0) := by
  have hset : ∀ s d l, l % 8 ≠ 0 →
      (set_interrupt d l s).dev_irq (d >>> 2) = 0o200 >>> (l % 8) ∧
      (set_interrupt d l s).pi_pending = true ∧
      ∀ j, j ≠ d >>> 2 → (set_interrupt d l s).dev_irq j = s.dev_irq j := by
    intro s d l hl
    have hm : l &&& 0o7 = l % 8 := and_seven_eq_mod l
    unfold set_interrupt
    rw [hm, if_pos hl]
    refine ⟨?_, rfl, ?_⟩
    · show (if d >>> 2 = d >>> 2 then 0o200 >>> (l % 8) else s.dev_irq (d >>> 2)) =
        0o200 >>> (l % 8)
      rw [if_pos rfl]
    · intro j hj
      show (if j = d >>> 2 then 0o200 >>> (l % 8) else s.dev_irq j) = s.dev_irq j
      rw [if_neg hj]
  have hnop : ∀ (s : KAState) (d l : Nat), l % 8 = 0 → set_interrupt d l s = s := by
    intro s d l hl
    unfold set_interrupt
    rw [and_seven_eq_mod, if_neg]
    simp [hl]
  refine ⟨?_, hnop, hset, ?_, ?_⟩
  · intro s hs
    induction hs with
    | reset s => intro i; simp [cpu_reset]
    | step_set d l hr ih =>
      intro i
      rename_i s'
      by_cases hl : l % 8 = 0
      · rw [hnop s' d l hl]
        exact ih i
      · rcases hset s' d l hl with ⟨h1, _, h3⟩
        by_cases hij : i = d >>> 2
        · subst hij
          rw [h1]
          have hlt : l % 8 < 8 := Nat.mod_lt _ (by norm_num)
          exact request_bit_one_hot (l % 8) (by omega) (by omega)
        · rw [h3 i hij]
          exact ih i
    | step_clr d hr ih =>
      intro i
      rename_i s'
      show (if i = d >>> 2 then 0 else s'.dev_irq i) &&&
        ((if i = d >>> 2 then 0 else s'.dev_irq i) - 1) = 0
      by_cases hij : i = d >>> 2
      · rw [if_pos hij]
        decide
      · rw [if_neg hij]
        exact ih i
  · intro s d
    show (if d >>> 2 = d >>> 2 then 0 else s.dev_irq (d >>> 2)) = 0
    rw [if_pos rfl]
  · intro s i
    simp [cpu_reset]

/-- Witness for C10: a concrete reachable state after posting level 5 on
device 12 from reset, evaluated at its own entry, plus the no-op case at
level 8. -/
theorem C10_witness :
    (set_interrupt 12 5 (cpu_reset s0)).dev_irq (12 >>> 2) &&&
      ((set_interrupt 12 5 (cpu_reset s0)).dev_irq (12 >>> 2) - 1) = 0 ∧
    set_interrupt 12 8 (cpu_reset s0) = cpu_reset s0 ∧
    (set_interrupt 12 5 (cpu_reset s0)).dev_irq (12 >>> 2) = 0o200 >>> (5 % 8) :=
  ⟨C10_dev_irq_one_hot.1 _ (Reach.step_set 12 5 (Reach.reset s0)) (12 >>> 2),
   C10_dev_irq_one_hot.2.1 (cpu_reset s0) 12 8 (by decide),
   (C10_dev_irq_one_hot.2.2.1 (cpu_reset s0) 12 5 (by decide)).1⟩

/-- Generalisation of `or_and_self_ne_zero`: or-ing in a word that meets the
tested bit makes the test non-zero. -/
theorem or_and_ne_zero (x b c : Nat) (h : b &&& c ≠ 0) : (x ||| b) &&& c ≠ 0 := by
  intro hz
  apply h
  apply Nat.eq_of_testBit_eq
  intro i
  have h2 := congrArg (fun v => v.testBit i) hz
  simp only [Nat.testBit_and, Nat.testBit_or, Nat.zero_testBit] at h2
  simp only [Nat.testBit_and, Nat.zero_testBit]
  cases hx : x.testBit i <;> cases hb : b.testBit i <;> cases hc : c.testBit i <;> simp_all

/-- Masking with CMASK is reduction modulo `2 ^ 35`. -/
theorem and_cmask_eq_mod (x : Nat) : x &&& CMASK = x % 2 ^ 35 := by
  have h : CMASK = 2 ^ 35 - 1 := by decide
  rw [h, Nat.and_pow_two_sub_one_eq_mod]

/-- Masking with FMASK is reduction modulo `2 ^ 36`. -/
theorem and_fmask_eq_mod (x : Nat) : x &&& FMASK = x % 2 ^ 36 := by
  have h : FMASK = 2 ^ 36 - 1 := by decide
  rw [h, Nat.and_pow_two_sub_one_eq_mod]

/-- Testing SMASK on a value below `2 ^ 36` is a magnitude comparison. -/
theorem and_smask_ne_zero_iff {v : Nat} (h : v < 2 ^ 36) :
    v &&& SMASK ≠ 0 ↔ 2 ^ 35 ≤ v := by
  have hs : SMASK = 2 ^ 35 := by decide
  rw [hs]
  exact and_two_pow_ne_zero_iff h

/-- Testing C1 on a value below `2 ^ 37` is a magnitude comparison. -/
theorem and_c1_ne_zero_iff {v : Nat} (h : v < 2 ^ 37) :
    v &&& C1 ≠ 0 ↔ 2 ^ 36 ≤ v := by
  have hs : C1 = 2 ^ 36 := by decide
  rw [hs]
  exact and_two_pow_ne_zero_iff h

/-- Xor with CMASK complements a 35-bit value. -/
theorem xor_cmask_eq_sub {a : Nat} (h : a < 2 ^ 35) : a ^^^ CMASK = 2 ^ 35 - 1 - a := by
  have hc : CMASK = 2 ^ 35 - 1 := by decide
  rw [hc]
  exact xor_ones_of_lt 35 a h

/-- The one's complement `CM` of a 36-bit value. -/
theorem cm_eq_sub {x : Nat} (h : x < 2 ^ 36) : CM x = 2 ^ 36 - 1 - x := by
  unfold CM
  rw [Nat.xor_comm]
  have hf : FMASK = 2 ^ 36 - 1 := by decide
  rw [hf]
  exact xor_ones_of_lt 36 x h

/-- Reading the three arithmetic flags out of the cascade
`FLAGS &= 01777; if .. FLAGS |= CRY1; if .. FLAGS |= CRY0; if .. FLAGS |= ovm`
that the ADD, SUB and MOVN bodies build. -/
theorem cascade_tests (F0 ovm : Nat) (b1 b0 bo : Bool)
    (hF1 : F0 &&& CRY1 = 0) (hF0 : F0 &&& CRY0 = 0) (hFo : F0 &&& OVR = 0)
    (hm1 : ovm &&& CRY1 = 0) (hm0 : ovm &&& CRY0 = 0) (hmo : ovm &&& OVR ≠ 0) :
    ((if bo then (if b0 then (if b1 then F0 ||| CRY1 else F0) ||| CRY0
                  else if b1 then F0 ||| CRY1 else F0) ||| ovm
      else if b0 then (if b1 then F0 ||| CRY1 else F0) ||| CRY0
           else if b1 then F0 ||| CRY1 else F0) &&& CRY1 ≠ 0 ↔ b1 = true) ∧
    ((if bo then (if b0 then (if b1 then F0 ||| CRY1 else F0) ||| CRY0
                  else if b1 then F0 ||| CRY1 else F0) ||| ovm
      else if b0 then (if b1 then F0 ||| CRY1 else F0) ||| CRY0
           else if b1 then F0 ||| CRY1 else F0) &&& CRY0 ≠ 0 ↔ b0 = true) ∧
    ((if bo then (if b0 then (if b1 then F0 ||| CRY1 else F0) ||| CRY0
                  else if b1 then F0 ||| CRY1 else F0) ||| ovm
      else if b0 then (if b1 then F0 ||| CRY1 else F0) ||| CRY0
           else if b1 then F0 ||| CRY1 else F0) &&& OVR ≠ 0 ↔ bo = true) := by
  have d10 : CRY1 &&& CRY0 = 0 := by decide
  have d11 : CRY1 &&& CRY1 = CRY1 := by decide
  have d1o : CRY1 &&& OVR = 0 := by decide
  have d00 : CRY0 &&& CRY0 = CRY0 := by decide
  have d01 : CRY0 &&& CRY1 = 0 := by decide
  have d0o : CRY0 &&& OVR = 0 := by decide
  have e1 : CRY1 ≠ 0 := by decide
  have e0 : CRY0 ≠ 0 := by decide
  cases b1 <;> cases b0 <;> cases bo <;>
    simp [Nat.and_distrib_right, hF1, hF0, hFo, hm1, hm0, d10, d11, d1o, d00, d01, d0o,
      hmo, e1, e0]

/-- The masked flag word tests zero on every cleared arithmetic flag. -/
theorem masked_flags_zero (F b : Nat) (h : 0o1777 &&& b = 0) : (F &&& 0o1777) &&& b = 0 := by
  rw [Nat.and_assoc, h, Nat.and_zero]

/-- Boolean reading of the overflow condition. -/
theorem bne_true_iff_not_iff (x y : Bool) : ((x != y) = true) ↔ ¬((y = true) ↔ (x = true)) := by
  cases x <;> cases y <;> simp

/-- Counterexample to claim C1 as stated: for SUB with minuend A = 0 and
subtrahend B = 0, the claim says the addition performed is `A + (~B + 1)` and
that CRY1 is set iff the low 35-bit halves of the two addends sum into the
sign bit; with the second addend `~0 + 1` that formula has no SMASK bit (its
low 35 bits are zero), yet the code sets both CRY1 and CRY0 (and hence no
OVR). -/
theorem C1_counterexample :
    ((0 &&& CMASK) + ((CM 0 + 1) &&& CMASK)) &&& SMASK = 0 ∧
    (sub_exec 0 0 0).2 &&& CRY1 ≠ 0 ∧
    (sub_exec 0 0 0).2 &&& CRY0 ≠ 0 ∧
    (sub_exec 0 0 0).2 &&& OVR = 0 := by decide

/-- Claim C1 as amended: for ADD on 36-bit operands, CRY1 is set iff the low
35-bit halves sum to at least `2 ^ 35` (the SMASK bit of
`(A & CMASK) + (B & CMASK)`), CRY0 iff the full sum reaches `2 ^ 36` (the C1
bit), and OVR iff exactly one of them is set; for SUB (minuend `BR`, the
accumulator, minus subtrahend `AR`, the memory operand) the machine adds
`CM(AR) + BR + 1` with the carry-in of the `+1` entering the low 35-bit sum,
so CRY1 is set iff `AR mod 2^35 ≤ BR mod 2^35`, CRY0 iff `AR ≤ BR`, and OVR
again iff the two carries differ. -/
theorem C1_carry_flags (F AR BR : Nat) (hA : AR < 2 ^ 36) (hB : BR < 2 ^ 36) :
    (((add_exec F AR BR).2 &&& CRY1 ≠ 0) ↔ 2 ^ 35 ≤ AR % 2 ^ 35 + BR % 2 ^ 35) ∧
    (((add_exec F AR BR).2 &&& CRY0 ≠ 0) ↔ 2 ^ 36 ≤ AR + BR) ∧
    (((add_exec F AR BR).2 &&& OVR ≠ 0) ↔
       ¬(((add_exec F AR BR).2 &&& CRY0 ≠ 0) ↔ ((add_exec F AR BR).2 &&& CRY1 ≠ 0))) ∧
    ((add_exec F AR BR).1 = (AR + BR) % 2 ^ 36) ∧
    (((sub_exec F AR BR).2 &&& CRY1 ≠ 0) ↔ AR % 2 ^ 35 ≤ BR % 2 ^ 35) ∧
    (((sub_exec F AR BR).2 &&& CRY0 ≠ 0) ↔ AR ≤ BR) ∧
    (((sub_exec F AR BR).2 &&& OVR ≠ 0) ↔
       ¬(((sub_exec F AR BR).2 &&& CRY0 ≠ 0) ↔ ((sub_exec F AR BR).2 &&& CRY1 ≠ 0))) ∧
    ((sub_exec F AR BR).1 = (2 ^ 36 + BR - AR) % 2 ^ 36) := by
  have h35 : (0:Nat) < 2 ^ 35 := Nat.pos_pow_of_pos 35 (by norm_num)
  have hA35 := Nat.mod_lt AR h35
  have hB35 := Nat.mod_lt BR h35
  have hp36 : (2:Nat) ^ 36 = 2 ^ 35 * 2 := by norm_num
  have hp37 : (2:Nat) ^ 37 = 2 ^ 36 * 2 := by norm_num
  have hz1 : (F &&& 0o1777) &&& CRY1 = 0 := masked_flags_zero F CRY1 (by decide)
  have hz0 : (F &&& 0o1777) &&& CRY0 = 0 := masked_flags_zero F CRY0 (by decide)
  have hzo : (F &&& 0o1777) &&& OVR = 0 := masked_flags_zero F OVR (by decide)
  -- the ADD cascade
  have hca := cascade_tests (F &&& 0o1777) OVR
    (((AR &&& CMASK) + (BR &&& CMASK)) &&& SMASK != 0)
    ((AR + BR) &&& C1 != 0)
    ((((AR &&& CMASK) + (BR &&& CMASK)) &&& SMASK != 0) != ((AR + BR) &&& C1 != 0))
    hz1 hz0 hzo (by decide) (by decide) (by decide)
  -- the SUB cascade
  have hcs := cascade_tests (F &&& 0o1777) OVR
    ((((AR &&& CMASK) ^^^ CMASK) + (BR &&& CMASK) + 1) &&& SMASK != 0)
    ((CM AR + BR + 1) &&& C1 != 0)
    (((((AR &&& CMASK) ^^^ CMASK) + (BR &&& CMASK) + 1) &&& SMASK != 0) !=
      ((CM AR + BR + 1) &&& C1 != 0))
    hz1 hz0 hzo (by decide) (by decide) (by decide)
  have hap1 : (((AR &&& CMASK) + (BR &&& CMASK)) &&& SMASK ≠ 0) ↔
      2 ^ 35 ≤ AR % 2 ^ 35 + BR % 2 ^ 35 := by
    rw [and_cmask_eq_mod, and_cmask_eq_mod]
    exact and_smask_ne_zero_iff (by omega)
  have hap0 : ((AR + BR) &&& C1 ≠ 0) ↔ 2 ^ 36 ≤ AR + BR :=
    and_c1_ne_zero_iff (by omega)
  have hsp1 : ((((AR &&& CMASK) ^^^ CMASK) + (BR &&& CMASK) + 1) &&& SMASK ≠ 0) ↔
      AR % 2 ^ 35 ≤ BR % 2 ^ 35 := by
    rw [and_cmask_eq_mod, and_cmask_eq_mod, xor_cmask_eq_sub hA35]
    rw [and_smask_ne_zero_iff (by omega)]
    omega
  have hsp0 : ((CM AR + BR + 1) &&& C1 ≠ 0) ↔ AR ≤ BR := by
    rw [cm_eq_sub hA]
    rw [and_c1_ne_zero_iff (by omega)]
    omega
  rcases hca with ⟨ha1, ha0, hao⟩
  rcases hcs with ⟨hs1, hs0, hso⟩
  have fa1 : ((add_exec F AR BR).2 &&& CRY1 ≠ 0) ↔
      ((((AR &&& CMASK) + (BR &&& CMASK)) &&& SMASK != 0) = true) := ha1
  have fa0 : ((add_exec F AR BR).2 &&& CRY0 ≠ 0) ↔ (((AR + BR) &&& C1 != 0) = true) := ha0
  have fao : ((add_exec F AR BR).2 &&& OVR ≠ 0) ↔
      (((((AR &&& CMASK) + (BR &&& CMASK)) &&& SMASK != 0) !=
        ((AR + BR) &&& C1 != 0)) = true) := hao
  have fs1 : ((sub_exec F AR BR).2 &&& CRY1 ≠ 0) ↔
      (((((AR &&& CMASK) ^^^ CMASK) + (BR &&& CMASK) + 1) &&& SMASK != 0) = true) := hs1
  have fs0 : ((sub_exec F AR BR).2 &&& CRY0 ≠ 0) ↔
      (((CM AR + BR + 1) &&& C1 != 0) = true) := hs0
  have fso : ((sub_exec F AR BR).2 &&& OVR ≠ 0) ↔
      ((((((AR &&& CMASK) ^^^ CMASK) + (BR &&& CMASK) + 1) &&& SMASK != 0) !=
        ((CM AR + BR + 1) &&& C1 != 0)) = true) := hso
  refine ⟨?_, ?_, ?_, ?_, ?_, ?_, ?_, ?_⟩
  · rw [fa1, bne_iff_ne]
    exact hap1
  · rw [fa0, bne_iff_ne]
    exact hap0
  · rw [fao, fa1, fa0]
    exact bne_true_iff_not_iff _ _
  · show (AR + BR) &&& FMASK = (AR + BR) % 2 ^ 36
    exact and_fmask_eq_mod _
  · rw [fs1, bne_iff_ne]
    exact hsp1
  · rw [fs0, bne_iff_ne]
    exact hsp0
  · rw [fso, fs1, fs0]
    exact bne_true_iff_not_iff _ _
  · show (CM AR + BR + 1) &&& FMASK = (2 ^ 36 + BR - AR) % 2 ^ 36
    rw [cm_eq_sub hA, and_fmask_eq_mod]
    congr 1
    omega

/-- Witness for C1 at F = 0, AR = 5, BR = 3. -/
theorem C1_witness :
    (5:Nat) < 2 ^ 36 ∧ (3:Nat) < 2 ^ 36 ∧
    ((((add_exec 0 5 3).2 &&& CRY1 ≠ 0) ↔ 2 ^ 35 ≤ 5 % 2 ^ 35 + 3 % 2 ^ 35) ∧
     (((add_exec 0 5 3).2 &&& CRY0 ≠ 0) ↔ 2 ^ 36 ≤ 5 + 3) ∧
     (((add_exec 0 5 3).2 &&& OVR ≠ 0) ↔
       ¬(((add_exec 0 5 3).2 &&& CRY0 ≠ 0) ↔ ((add_exec 0 5 3).2 &&& CRY1 ≠ 0))) ∧
     ((add_exec 0 5 3).1 = (5 + 3) % 2 ^ 36) ∧
     (((sub_exec 0 5 3).2 &&& CRY1 ≠ 0) ↔ 5 % 2 ^ 35 ≤ 3 % 2 ^ 35) ∧
     (((sub_exec 0 5 3).2 &&& CRY0 ≠ 0) ↔ 5 ≤ 3) ∧
     (((sub_exec 0 5 3).2 &&& OVR ≠ 0) ↔
       ¬(((sub_exec 0 5 3).2 &&& CRY0 ≠ 0) ↔ ((sub_exec 0 5 3).2 &&& CRY1 ≠ 0))) ∧
     ((sub_exec 0 5 3).1 = (2 ^ 36 + 3 - 5) % 2 ^ 36)) :=
  ⟨by decide, by decide, C1_carry_flags 0 5 3 (by decide) (by decide)⟩

/-- The MOVN result is two's-complement negation modulo `2 ^ 36`. -/
theorem movn_result (G y : Nat) (p : Bool) (hy : y < 2 ^ 36) :
    (movn_exec G y p).1 = (2 ^ 36 - y) % 2 ^ 36 := by
  show (CM y + 1) &&& FMASK = _
  rw [cm_eq_sub hy, and_fmask_eq_mod]
  congr 1
  omega

/-- Claim C6: applying the MOVN negation twice gives back the original 36-bit
word; when the operand is SMASK (the most negative number), a single MOVN
leaves SMASK as the result and sets the OVR flag. -/
theorem C6_movn_involution (F x : Nat) (hx : x < 2 ^ 36) :
    (x ≠ SMASK → (movn_exec F (movn_exec F x false).1 false).1 = x) ∧
    (x = SMASK → (movn_exec F x false).1 = SMASK ∧
      (movn_exec F x false).2 &&& OVR ≠ 0) := by
  constructor
  · intro _
    have h1 := movn_result F x false hx
    have hylt : (2 ^ 36 - x) % 2 ^ 36 < 2 ^ 36 :=
      Nat.mod_lt _ (Nat.pos_pow_of_pos 36 (by norm_num))
    have h2 := movn_result F ((movn_exec F x false).1) false (h1 ▸ hylt)
    rw [h2, h1]
    omega
  · intro hxs
    subst hxs
    constructor
    · rw [movn_result F SMASK false hx]
      decide
    · have hz1 : (F &&& 0o1777) &&& CRY1 = 0 := masked_flags_zero F CRY1 (by decide)
      have hz0 : (F &&& 0o1777) &&& CRY0 = 0 := masked_flags_zero F CRY0 (by decide)
      have hzo : (F &&& 0o1777) &&& OVR = 0 := masked_flags_zero F OVR (by decide)
      have hc := cascade_tests (F &&& 0o1777) (OVR ||| TRP1)
        ((((SMASK &&& CMASK) ^^^ CMASK) + 1) &&& SMASK != 0)
        ((CM SMASK + 1) &&& C1 != 0)
        (((((SMASK &&& CMASK) ^^^ CMASK) + 1) &&& SMASK != 0) !=
          ((CM SMASK + 1) &&& C1 != 0) && !false)
        hz1 hz0 hzo (by decide) (by decide) (by decide)
      have hov : ((movn_exec F SMASK false).2 &&& OVR ≠ 0) ↔
          ((((((SMASK &&& CMASK) ^^^ CMASK) + 1) &&& SMASK != 0) !=
            ((CM SMASK + 1) &&& C1 != 0) && !false) = true) := hc.2.2
      rw [hov]
      decide

/-- Witness for C6 at x = 5 and x = SMASK. -/
theorem C6_witness :
    (5:Nat) < 2 ^ 36 ∧ SMASK < 2 ^ 36 ∧
    (movn_exec 0 (movn_exec 0 5 false).1 false).1 = 5 ∧
    ((movn_exec 0 SMASK false).1 = SMASK ∧ (movn_exec 0 SMASK false).2 &&& OVR ≠ 0) :=
  ⟨by decide, by decide,
   (C6_movn_involution 0 5 (by decide)).1 (by decide),
   (C6_movn_involution 0 SMASK (by decide)).2 rfl⟩

/-- Claim C3 names the out-of-range condition "at or above MEMSIZE", but the
code tests `addr > MEMSIZE`: at a translated physical address exactly equal
to the configured memory size (executive mode, so translation is the
identity) `Mem_read` succeeds, delivers `M[MEMSIZE]` into MB and raises no
NXM and no APR interrupt, and `Mem_write` likewise stores there; one address
higher both helpers fail exactly as the claim describes (failure indicator,
`nxm_flag`, APR interrupt at level `apr_irq`, no data transfer).  The
companion front-end accessors `cpu_ex`/`cpu_dep` in the same file treat
`ea >= MEMSIZE` as non-existent memory, so the strict comparison is an
off-by-one slip in the helpers. -/
theorem C3_nxm_boundary :
    (Mem_read false c3state).1 = false ∧
    (Mem_read false c3state).2.nxm_flag = false ∧
    (Mem_read false c3state).2.MB = 7 ∧
    (Mem_read false c3state).2.dev_irq 0 = 0 ∧
    (Mem_write false c3state).1 = false ∧
    (Mem_write false c3state).2.nxm_flag = false ∧
    (Mem_write false c3state).2.M 0o40 = c3state.MB ∧
    (Mem_read false { c3state with AB := 0o41 }).1 = true ∧
    (Mem_read false { c3state with AB := 0o41 }).2.nxm_flag = true ∧
    (Mem_read false { c3state with AB := 0o41 }).2.dev_irq 0 = 0o200 >>> 1 ∧
    (Mem_read false { c3state with AB := 0o41 }).2.pi_pending = true ∧
    (Mem_read false { c3state with AB := 0o41 }).2.MB = c3state.MB := by
  decide

/-- Claim C5: a user-mode access (USER set, not a privileged fetch), read or
write, whose address passes neither the low-segment test nor the two-segment
high test for its direction — for a write the high test also demands a clear
`Pflag` — makes `page_lookup` fail with `mem_prot` set and an APR interrupt
posted at level `apr_irq`; when the access is the operand read of a MOVE,
the instruction leaves the whole fast-register file, in particular the
addressed accumulator, unchanged. -/
theorem C5_protection_denied (s : KAState) (wr : Bool)
    (hUser : s.flags &&& USER ≠ 0)
    (hAB : 0o20 ≤ s.AB)
    (hLow : ¬(s.AB ≤ (s.Pl <<< 10) + 0o1777))
    (hHigh : ¬(s.twoseg ∧ ((!s.Pflag && wr) = wr) ∧ (s.AB &&& 0o400000 ≠ 0) ∧
              s.AB ≤ (s.Ph <<< 10) + 0o1777))
    (hApr : s.apr_irq &&& 0o7 ≠ 0) :
    (page_lookup s.AB false wr s).1 = false ∧
    (page_lookup s.AB false wr s).2.2.mem_prot = true ∧
    (page_lookup s.AB false wr s).2.2.dev_irq 0 = 0o200 >>> (s.apr_irq &&& 0o7) ∧
    (page_lookup s.AB false wr s).2.2.pi_pending = true ∧
    (wr = false → ∀ j, (exec_move s).FM j = s.FM j) := by
  have hcond : ¬(false = true) ∧ s.flags &&& USER ≠ 0 := ⟨by simp, hUser⟩
  have hpl : page_lookup s.AB false wr s =
      (false, 0, set_interrupt 0 s.apr_irq { s with mem_prot := true }) := by
    unfold page_lookup
    rw [if_pos hcond, if_neg hLow, if_neg hHigh]
  have hsi : set_interrupt 0 s.apr_irq { s with mem_prot := true } =
      { s with mem_prot := true
               dev_irq := fun i => if i = 0 then 0o200 >>> (s.apr_irq &&& 0o7)
                                   else s.dev_irq i
               pi_pending := true } := by
    unfold set_interrupt
    rw [if_pos hApr]
    rfl
  rw [hpl, hsi]
  refine ⟨rfl, rfl, by simp, rfl, ?_⟩
  intro hwr j
  subst hwr
  unfold exec_move Mem_read
  rw [if_neg (by omega), hpl, hsi]

/-- Witness for C5, both access directions.  Read: the spec scenario, USER
mode, Pl = 0, one-segment machine, address 0400000, MOVE into AC 1, APR
level 1.  Write: two-segment machine with `Pflag` set and the address inside
the high segment, denied by the write-protect test alone. -/
theorem C5_witness :
    (c5state.flags &&& USER ≠ 0 ∧
     0o20 ≤ c5state.AB ∧
     ¬(c5state.AB ≤ (c5state.Pl <<< 10) + 0o1777) ∧
     c5state.apr_irq &&& 0o7 ≠ 0 ∧
     ((page_lookup c5state.AB false false c5state).1 = false ∧
      (page_lookup c5state.AB false false c5state).2.2.mem_prot = true ∧
      (page_lookup c5state.AB false false c5state).2.2.dev_irq 0 =
        0o200 >>> (c5state.apr_irq &&& 0o7) ∧
      (page_lookup c5state.AB false false c5state).2.2.pi_pending = true ∧
      (false = false → ∀ j, (exec_move c5state).FM j = c5state.FM j))) ∧
    (c5wstate.twoseg = true ∧ c5wstate.Pflag = true ∧
     c5wstate.AB &&& 0o400000 ≠ 0 ∧
     c5wstate.AB ≤ (c5wstate.Ph <<< 10) + 0o1777 ∧
     ((page_lookup c5wstate.AB false true c5wstate).1 = false ∧
      (page_lookup c5wstate.AB false true c5wstate).2.2.mem_prot = true ∧
      (page_lookup c5wstate.AB false true c5wstate).2.2.dev_irq 0 =
        0o200 >>> (c5wstate.apr_irq &&& 0o7) ∧
      (page_lookup c5wstate.AB false true c5wstate).2.2.pi_pending = true ∧
      (true = false → ∀ j, (exec_move c5wstate).FM j = c5wstate.FM j))) :=
  ⟨⟨by decide, by decide, by decide, by decide,
    C5_protection_denied c5state false (by decide) (by decide) (by decide)
      (by simp [c5state, s0]) (by decide)⟩,
   ⟨by decide, by decide, by decide, by decide,
    C5_protection_denied c5wstate true (by decide) (by decide) (by decide)
      (by simp [c5wstate, s0]) (by decide)⟩⟩

set_option maxRecDepth 10000 in
set_option maxHeartbeats 4000000 in
/-- Exhaustive check over the 2 x 7 bits: whenever the arbitration grants a
level, every bit of the hold word lies strictly below the granted level's
bit, i.e. the hold word is smaller than the granted bit. -/
theorem grant_core_masks : ∀ pir pih : Fin 128,
    grant_core pir.val pih.val = 0 ∨
    (1 ≤ grant_core pir.val pih.val ∧ grant_core pir.val pih.val ≤ 7 ∧
     pih.val < 2 ^ (7 - grant_core pir.val pih.val)) := by
  decide

set_option maxRecDepth 4000 in
set_option maxHeartbeats 1000000 in
/-- Exhaustive check: the dismissal scan clears exactly the
highest-priority (numerically highest) set bit of the hold word. -/
theorem restore_find_clears_highest : ∀ pih : Fin 128, pih.val ≠ 0 →
    ∃ k : Fin 8, 2 ^ k.val ≤ pih.val ∧ pih.val < 2 ^ (k.val + 1) ∧
      pih.val &&& (restore_find 7 0o100 pih.val ^^^ 0o177) = pih.val - 2 ^ k.val := by
  decide

set_option maxRecDepth 4000 in
set_option maxHeartbeats 1000000 in
/-- Exhaustive check: a set bit bounds the word from below. -/
theorem held_bit_le : ∀ pih : Fin 128, ∀ k : Fin 8,
    pih.val &&& 2 ^ k.val ≠ 0 → 2 ^ k.val ≤ pih.val := by
  decide

/-- The request bit of a level 1-7 is the power of two of its distance from
level 7. -/
theorem request_bit_eq_pow (h : Nat) (h1 : 1 ≤ h) (h2 : h ≤ 7) :
    0o200 >>> h = 2 ^ (7 - h) := by
  interval_cases h <;> decide

/-- The merged device-request word stays below 2^7 when every entry does. -/
theorem irq_or_lt (s : KAState) (hdev : ∀ i, s.dev_irq i < 2 ^ 7) :
    irq_or s < 2 ^ 7 := by
  unfold irq_or
  have hgen : ∀ (l : List Nat) (acc : Nat), acc < 2 ^ 7 →
      l.foldl (fun a i => a ||| s.dev_irq i) acc < 2 ^ 7 := by
    intro l
    induction l with
    | nil => intro acc h; simpa using h
    | cons x xs ih =>
      intro acc h
      exact ih _ (Nat.or_lt_two_pow h (hdev x))
  exact hgen _ 0 (by norm_num)

/-- Posting an interrupt does not change PIH. -/
theorem set_interrupt_pih (d l : Nat) (t : KAState) :
    (set_interrupt d l t).PIH = t.PIH := by
  simp only [set_interrupt]
  split <;> rfl

/-- The arbitration does not change PIH. -/
theorem check_irq_level_pih (s : KAState) : (check_irq_level s).2.PIH = s.PIH := by
  by_cases hg : grant_core (s.PIR ||| (irq_or s &&& s.PIE)) s.PIH = 0 <;>
    simp [check_irq_level, hg]

/-- The arbitration grants exactly when the core encoder returns a non-zero
level, and then reports that level. -/
theorem check_irq_level_grant (s : KAState) :
    ((check_irq_level s).1 = true ↔
      grant_core (s.PIR ||| (irq_or s &&& s.PIE)) s.PIH ≠ 0) ∧
    ((check_irq_level s).1 = true →
      (check_irq_level s).2.pi_enc = grant_core (s.PIR ||| (irq_or s &&& s.PIE)) s.PIH) := by
  by_cases hg : grant_core (s.PIR ||| (irq_or s &&& s.PIE)) s.PIH = 0 <;>
    simp [check_irq_level, hg]

/-- The APR check never touches PIH. -/
theorem check_apr_irq_pih (s : KAState) : (check_apr_irq s).PIH = s.PIH := by
  simp only [check_apr_irq, clr_interrupt]
  split <;> split <;> simp [set_interrupt_pih]

/-- Claim C4: the hold mask masks the granted levels.  Whenever any level
`h` is held in PIH, `check_irq_level` can only grant a strictly
higher-priority (smaller-numbered) level, and `set_pi_hold` then adds the
granted level's bit to PIH; `restore_pi_hold` dismisses exactly the
highest-priority held level (the numerically highest bit of PIH). -/
theorem C4_pih_priority (s : KAState)
    (hPIR : s.PIR < 2 ^ 7) (hPIE : s.PIE < 2 ^ 7) (hPIH : s.PIH < 2 ^ 7) :
    (∀ h, 1 ≤ h → h ≤ 7 → s.PIH &&& (0o200 >>> h) ≠ 0 →
       (check_irq_level s).1 = true →
       (check_irq_level s).2.pi_enc < h ∧
       (set_pi_hold (check_irq_level s).2).PIH =
         s.PIH ||| (0o200 >>> (check_irq_level s).2.pi_enc)) ∧
    (s.pi_enable = true → s.PIH ≠ 0 →
       ∃ k : Fin 8, 2 ^ k.val ≤ s.PIH ∧ s.PIH < 2 ^ (k.val + 1) ∧
         (restore_pi_hold s).PIH = s.PIH - 2 ^ k.val) := by
  constructor
  · intro h h1 h7 hheld hgrant
    have hpir : s.PIR ||| (irq_or s &&& s.PIE) < 2 ^ 7 :=
      Nat.or_lt_two_pow hPIR
        (Nat.lt_of_le_of_lt (Nat.and_le_right) hPIE)
    have hg := (check_irq_level_grant s).1.mp hgrant
    have henc := (check_irq_level_grant s).2 hgrant
    have hmask := grant_core_masks ⟨_, hpir⟩ ⟨_, hPIH⟩
    simp only at hmask
    rcases hmask with hz | ⟨hge, hle, hlt⟩
    · exact absurd hz hg
    · constructor
      · have hbit : 2 ^ (7 - h) ≤ s.PIH := by
          apply held_bit_le ⟨s.PIH, hPIH⟩ ⟨7 - h, by omega⟩
          simpa [request_bit_eq_pow h h1 h7] using hheld
        have hpow : 2 ^ (7 - h) <
            2 ^ (7 - grant_core (s.PIR ||| (irq_or s &&& s.PIE)) s.PIH) := by
          omega
        have := (Nat.pow_lt_pow_iff_right (by norm_num : 1 < 2)).mp hpow
        omega
      · unfold set_pi_hold
        rw [check_irq_level_pih]
  · intro hen hne
    have hval : (restore_pi_hold s).PIH =
        s.PIH &&& (restore_find 7 0o100 s.PIH ^^^ 0o177) := by
      simp only [restore_pi_hold]
      rw [if_neg (by simp [hen])]
      split
      · rw [check_apr_irq_pih]
      · rfl
    rcases restore_find_clears_highest ⟨s.PIH, hPIH⟩ hne with ⟨k, hk1, hk2, hk3⟩
    exact ⟨k, hk1, hk2, by rw [hval]; exact hk3⟩

set_option maxRecDepth 10000 in
/-- Witness for C4: level 4 held, level 1 requested and enabled, grant goes
to level 1 and the dismissal clears level 4. -/
theorem C4_witness :
    (let s := { s0 with PIR := 0o100, PIH := 0o010, pi_enable := true };
     1 ≤ 4 ∧ 4 ≤ 7 ∧ s.PIH &&& (0o200 >>> 4) ≠ 0 ∧
     (check_irq_level s).1 = true ∧
     (check_irq_level s).2.pi_enc < 4 ∧
     (set_pi_hold (check_irq_level s).2).PIH =
       s.PIH ||| (0o200 >>> (check_irq_level s).2.pi_enc) ∧
     ∃ k : Fin 8, 2 ^ k.val ≤ s.PIH ∧ s.PIH < 2 ^ (k.val + 1) ∧
       (restore_pi_hold s).PIH = s.PIH - 2 ^ k.val) := by
  refine ⟨by decide, by decide, by decide, by decide, ?_, ?_, ?_⟩
  · exact ((C4_pih_priority _ (by decide) (by decide)
      (by decide)).1 4 (by decide) (by decide) (by decide) (by decide)).1
  · exact ((C4_pih_priority _ (by decide) (by decide)
      (by decide)).1 4 (by decide) (by decide) (by decide) (by decide)).2
  · exact (C4_pih_priority _ (by decide) (by decide) (by decide)).2 rfl (by decide)

set_option maxRecDepth 4000 in
set_option maxHeartbeats 1000000 in
/-- Exhaustive check over the opflags table: no entry carries SAC2 without
also carrying SAC or SACZ. -/
theorem opflag_sac2_zero : ∀ ir : Fin 512,
    opflag ir.val &&& SAC = 0 → opflag ir.val &&& SACZ = 0 →
    opflag ir.val &&& SAC2 = 0 := by
  decide

/-- Posting an interrupt changes neither memory nor the register file. -/
theorem set_interrupt_mem (d l : Nat) (t : KAState) :
    (set_interrupt d l t).M = t.M ∧ (set_interrupt d l t).FM = t.FM := by
  simp only [set_interrupt]
  split <;> exact ⟨rfl, rfl⟩

/-- Frame property of `Mem_write` in executive mode: it writes at most the
single word addressed by AB, through the fast-register file when AB is below
020 and through memory otherwise. -/
theorem Mem_write_frame (s : KAState) (hexec : s.flags &&& USER = 0) :
    (∀ i, i ≠ s.AB → (Mem_write false s).2.M i = s.M i) ∧
    (0o20 ≤ s.AB → ∀ j, (Mem_write false s).2.FM j = s.FM j) ∧
    (s.AB < 0o20 → (∀ i, (Mem_write false s).2.M i = s.M i) ∧
      ∀ j, j ≠ s.AB &&& 0o17 → (Mem_write false s).2.FM j = s.FM j) := by
  by_cases hab : s.AB < 0o20
  · refine ⟨?_, ?_, ?_⟩
    · intro i _
      simp [Mem_write, hab]
    · intro h
      omega
    · intro _
      refine ⟨fun i => by simp [Mem_write, hab], fun j hj => ?_⟩
      simp only [Mem_write, if_pos hab]
      show (if j = s.AB &&& 0o17 then s.MB else s.FM j) = s.FM j
      rw [if_neg hj]
  · have hpl : page_lookup s.AB false true s = (true, s.AB, s) := by
      unfold page_lookup
      rw [if_neg (by simp [hexec])]
    have hmw : Mem_write false s =
        if s.AB > s.memsize then
          (true, set_interrupt 0 s.apr_irq { s with nxm_flag := true })
        else (false, { s with M := fun i => if i = s.AB then s.MB else s.M i }) := by
      unfold Mem_write
      rw [if_neg hab, hpl]
    refine ⟨?_, ?_, ?_⟩
    · intro i hi
      rw [hmw]
      split
      · rcases set_interrupt_mem 0 s.apr_irq { s with nxm_flag := true } with ⟨hM, _⟩
        show (set_interrupt 0 s.apr_irq { s with nxm_flag := true }).M i = s.M i
        rw [hM]
      · show (if i = s.AB then s.MB else s.M i) = s.M i
        rw [if_neg hi]
    · intro _ j
      rw [hmw]
      split
      · rcases set_interrupt_mem 0 s.apr_irq { s with nxm_flag := true } with ⟨_, hFM⟩
        show (set_interrupt 0 s.apr_irq { s with nxm_flag := true }).FM j = s.FM j
        rw [hFM]
      · rfl
    · intro h
      omega

/-- The register half of the epilogue is the identity when the flag word has
no accumulator-store flag. -/
theorem writeback_regs_id (fl : Nat) (si : Bool) (t : KAState)
    (hSAC : fl &&& SAC = 0) (hSACZ : fl &&& SACZ = 0) (hSAC2 : fl &&& SAC2 = 0) :
    writeback_regs fl si t = t := by
  unfold writeback_regs
  rw [if_neg (fun hc => hc.2 hSAC2)]
  rw [if_neg (fun hc => hc.2.elim (fun h => h hSAC) (fun h => h.1 hSACZ))]

set_option maxRecDepth 10000 in
/-- Counterexample to claim C2 as stated: the SKIP row (opcode 0330, flag
word SACZ|FCE) and EXCH (opcode 0250, flag word FAC|FCEPSE) both carry
neither SAC nor SCE, yet executing them in executive mode with AC field 1
and effective address 0100 changes the fast-register word 1 — an address
different from AB — from 7 to 5 (SKIP stores the fetched operand through
SACZ; EXCH stores the old memory word through its explicit `set_reg`). -/
theorem C2_counterexample :
    opflag 0o330 &&& SAC = 0 ∧ opflag 0o330 &&& SCE = 0 ∧
    opflag 0o330 &&& FCEPSE = 0 ∧
    (exec_skip c2state).FM 1 = 5 ∧ c2state.FM 1 = 7 ∧ c2state.AB = 0o100 ∧
    opflag 0o250 &&& SAC = 0 ∧ opflag 0o250 &&& SCE = 0 ∧
    (exec_exch c2state).FM 1 = 5 ∧ (exec_exch c2state).M 0o100 = 7 := by
  decide

/-- Claim C2 as amended: for every instruction whose opflags entry contains
none of SAC, SACZ and SCE, the store-back epilogue leaves memory and the
fast-register file unchanged except possibly the single word addressed by AB
(written only when the entry contains FCEPSE; addresses below 020 alias the
fast-register file, and in user mode the written cell is the relocation of
AB); instruction bodies may perform writes of their own beyond the epilogue
(EXCH, BLT, byte deposit, JFFO and others do). -/
theorem C2_opflags_frame (ir : Nat) (hir : ir < 512) (si : Bool) (s : KAState)
    (hexec : s.flags &&& USER = 0)
    (hSAC : opflag ir &&& SAC = 0) (hSACZ : opflag ir &&& SACZ = 0)
    (hSCE : opflag ir &&& SCE = 0) :
    (∀ i, i ≠ s.AB → (writeback (opflag ir) si s).M i = s.M i) ∧
    (0o20 ≤ s.AB → ∀ j, (writeback (opflag ir) si s).FM j = s.FM j) ∧
    (s.AB < 0o20 → (∀ i, (writeback (opflag ir) si s).M i = s.M i) ∧
      ∀ j, j ≠ s.AB &&& 0o17 → (writeback (opflag ir) si s).FM j = s.FM j) ∧
    (opflag ir &&& FCEPSE = 0 → writeback (opflag ir) si s = s) := by
  have hSAC2 : opflag ir &&& SAC2 = 0 := opflag_sac2_zero ⟨ir, hir⟩ hSAC hSACZ
  by_cases hmem : ¬si = true ∧ opflag ir &&& (SCE ||| FCEPSE) ≠ 0
  · have hwb : writeback (opflag ir) si s = (Mem_write false { s with MB := s.AR }).2 := by
      unfold writeback
      rw [if_pos hmem]
      rcases hmw : Mem_write false { s with MB := s.AR } with ⟨b, s1⟩
      cases b
      · exact writeback_regs_id _ _ _ hSAC hSACZ hSAC2
      · rfl
    have hfr := Mem_write_frame { s with MB := s.AR } hexec
    rw [hwb]
    refine ⟨hfr.1, hfr.2.1, hfr.2.2, ?_⟩
    intro hFCE
    exfalso
    apply hmem.2
    rw [Nat.and_or_distrib_left, hSCE, hFCE]
    rfl
  · have hwb : writeback (opflag ir) si s = s := by
      unfold writeback
      rw [if_neg hmem]
      exact writeback_regs_id _ _ _ hSAC hSACZ hSAC2
    rw [hwb]
    exact ⟨fun i _ => rfl, fun _ j => rfl, fun _ => ⟨fun i => rfl, fun j _ => rfl⟩,
      fun _ => rfl⟩

set_option maxRecDepth 10000 in
/-- Witness for C2 at the IBP entry (opcode 0133, flag word FCEPSE) and the
CAM entry (opcode 0310, flag word FCE), in the concrete executive state. -/
theorem C2_witness :
    (0o133:Nat) < 512 ∧
    opflag 0o133 &&& SAC = 0 ∧ opflag 0o133 &&& SACZ = 0 ∧ opflag 0o133 &&& SCE = 0 ∧
    (∀ i, i ≠ c2state.AB → (writeback (opflag 0o133) false c2state).M i = c2state.M i) ∧
    (∀ j, (writeback (opflag 0o133) false c2state).FM j = c2state.FM j) ∧
    (writeback (opflag 0o310) false c2state = c2state) :=
  ⟨by decide, by decide, by decide, by decide,
   (C2_opflags_frame 0o133 (by decide) false c2state (by decide)
     (by decide) (by decide) (by decide)).1,
   (C2_opflags_frame 0o133 (by decide) false c2state (by decide)
     (by decide) (by decide) (by decide)).2.1 (by decide),
   (C2_opflags_frame 0o310 (by decide) false c2state (by decide)
     (by decide) (by decide) (by decide)).2.2.2 (by decide)⟩

/-- Six-bit field mask. -/
theorem and_77_eq_mod (x : Nat) : x &&& 0o77 = x % 2 ^ 6 := by
  have h : (0o77 : Nat) = 2 ^ 6 - 1 := by decide
  rw [h, Nat.and_pow_two_sub_one_eq_mod]

/-- Nine-bit field mask. -/
theorem and_777_eq_mod (x : Nat) : x &&& 0o777 = x % 2 ^ 9 := by
  have h : (0o777 : Nat) = 2 ^ 9 - 1 := by decide
  rw [h, Nat.and_pow_two_sub_one_eq_mod]

/-- Byte-pointer body mask. -/
theorem and_pmask_eq_mod (x : Nat) : x &&& PMASK = x % 2 ^ 30 := by
  have h : PMASK = 2 ^ 30 - 1 := by decide
  rw [h, Nat.and_pow_two_sub_one_eq_mod]

/-- Xor against the nine-bit all-ones word. -/
theorem xor_777_eq_sub {a : Nat} (h : a < 2 ^ 9) : 0o777 ^^^ a = 2 ^ 9 - 1 - a := by
  have h9 : (0o777 : Nat) = 2 ^ 9 - 1 := by decide
  rw [h9, Nat.xor_comm]
  exact xor_ones_of_lt 9 a h

/-- Counterexample to claim C7 as stated: with position 0, size 1 and the
address field all ones, the increment phase carries out of the address field
into the index field, because the KA10 increments the entire 36-bit word;
the claimed behaviour (only the 18-bit address incremented) differs. -/
theorem C7_counterexample :
    bp_inc ((1 <<< 24) ||| 0o777777) = (35 <<< 30) ||| (1 <<< 24) ||| (1 <<< 18) ∧
    bp_inc_claimed ((1 <<< 24) ||| 0o777777) = (35 <<< 30) ||| (1 <<< 24) ∧
    bp_inc ((1 <<< 24) ||| 0o777777) ≠ bp_inc_claimed ((1 <<< 24) ||| 0o777777) := by
  decide

/-- Claim C7 as amended: for a 36-bit byte-pointer word with position P and
size S ≤ 36, the increment phase replaces the position with `P - S` and
leaves bits 6-35 unchanged when the difference is non-negative; when it goes
negative the new position is `36 - S` and bits 6-35 are taken from `w + 1` —
the whole word is incremented, so the address grows by one and a carry out
of the address field propagates into the index (and beyond). -/
theorem C7_bp_inc_fields (w : Nat)
    (hS36 : (w >>> 24) &&& 0o77 ≤ 36) :
    ((w >>> 24) &&& 0o77 ≤ (w >>> 30) &&& 0o77 →
       bp_inc w = w % 2 ^ 30 +
         2 ^ 30 * (((w >>> 30) &&& 0o77) - ((w >>> 24) &&& 0o77))) ∧
    ((w >>> 30) &&& 0o77 < (w >>> 24) &&& 0o77 →
       bp_inc w = (w + 1) % 2 ^ 30 + 2 ^ 30 * (36 - ((w >>> 24) &&& 0o77))) := by
  have hPlt : (w >>> 30) &&& 0o77 < 2 ^ 6 := by
    rw [and_77_eq_mod]
    exact Nat.mod_lt _ (by norm_num)
  have hSlt : (w >>> 24) &&& 0o77 < 2 ^ 6 := by
    rw [and_77_eq_mod]
    exact Nat.mod_lt _ (by norm_num)
  have hx : 0o777 ^^^ ((w >>> 24) &&& 0o77) = 2 ^ 9 - 1 - ((w >>> 24) &&& 0o77) :=
    xor_777_eq_sub (by omega)
  have hSCAD : (((w >>> 30) &&& 0o77) + (0o777 ^^^ ((w >>> 24) &&& 0o77)) + 1) &&& 0o777 =
      (((w >>> 30) &&& 0o77) + 2 ^ 9 - ((w >>> 24) &&& 0o77)) % 2 ^ 9 := by
    rw [hx, and_777_eq_mod]
    congr 1
    omega
  have htest : ((((w >>> 30) &&& 0o77) + (0o777 ^^^ ((w >>> 24) &&& 0o77)) + 1) &&& 0o777)
        &&& 0o400 ≠ 0 ↔
      (w >>> 30) &&& 0o77 < (w >>> 24) &&& 0o77 := by
    rw [hSCAD]
    have h400 : (0o400 : Nat) = 2 ^ 8 := by decide
    rw [h400, and_two_pow_ne_zero_iff (Nat.mod_lt _ (by norm_num))]
    omega
  constructor
  · intro hle
    have hcond := htest.not.mpr (by omega)
    simp only [bp_inc]
    rw [if_neg hcond, if_neg hcond, hSCAD]
    have hsmall : (((w >>> 30) &&& 0o77) + 2 ^ 9 - ((w >>> 24) &&& 0o77)) % 2 ^ 9 =
        ((w >>> 30) &&& 0o77) - ((w >>> 24) &&& 0o77) := by
      omega
    rw [hsmall, and_pmask_eq_mod]
    have hd : (((w >>> 30) &&& 0o77) - ((w >>> 24) &&& 0o77)) &&& 0o77 =
        ((w >>> 30) &&& 0o77) - ((w >>> 24) &&& 0o77) := by
      rw [and_77_eq_mod]
      omega
    rw [hd, lor_shiftLeft_eq_add _ 30 (Nat.mod_lt _ (by norm_num))]
    omega
  · intro hlt
    have hcond := htest.mpr hlt
    simp only [bp_inc]
    rw [if_pos hcond, if_pos hcond]
    have hsc2 : ((0o777 ^^^ ((w >>> 24) &&& 0o77)) + 0o44 + 1) &&& 0o777 =
        36 - ((w >>> 24) &&& 0o77) := by
      rw [hx, and_777_eq_mod]
      omega
    have hd : (36 - ((w >>> 24) &&& 0o77)) &&& 0o77 = 36 - ((w >>> 24) &&& 0o77) := by
      rw [and_77_eq_mod]
      omega
    rw [hsc2, hd, and_fmask_eq_mod, and_pmask_eq_mod, Nat.mod_mod_of_dvd _ (by norm_num),
      lor_shiftLeft_eq_add _ 30 (Nat.mod_lt _ (by norm_num))]
    omega

/-- Witness for C7: a pointer with position 12, size 6, address 0100 in both
branch directions (the second input has position 4). -/
theorem C7_witness :
    (let w1 := (12 <<< 30) ||| (6 <<< 24) ||| 0o100;
     let w2 := (4 <<< 30) ||| (6 <<< 24) ||| 0o100;
     (w1 >>> 24) &&& 0o77 ≤ 36 ∧
     (w1 >>> 24) &&& 0o77 ≤ (w1 >>> 30) &&& 0o77 ∧
     bp_inc w1 = w1 % 2 ^ 30 +
       2 ^ 30 * (((w1 >>> 30) &&& 0o77) - ((w1 >>> 24) &&& 0o77)) ∧
     (w2 >>> 24) &&& 0o77 ≤ 36 ∧
     (w2 >>> 30) &&& 0o77 < (w2 >>> 24) &&& 0o77 ∧
     bp_inc w2 = (w2 + 1) % 2 ^ 30 + 2 ^ 30 * (36 - ((w2 >>> 24) &&& 0o77))) := by
  refine ⟨by decide, by decide, ?_, by decide, by decide, ?_⟩
  · exact (C7_bp_inc_fields _ (by decide)).1 (by decide)
  · exact (C7_bp_inc_fields _ (by decide)).2 (by decide)

/-- A single run of the LDB loop with a zero count returns the register. -/
theorem ldb_loop_zero (f ar : Nat) : ldb_loop f ar 0 = ar := by
  cases f <;> simp [ldb_loop]

/-- The LDB shift loop counts `sc` up to 512 modulo 512, shifting right once
per step. -/
theorem ldb_loop_run : ∀ (fuel sc ar : Nat), 1 ≤ sc → sc < 512 → 512 - sc ≤ fuel →
    ldb_loop fuel ar sc = ar >>> (512 - sc) := by
  intro fuel
  induction fuel with
  | zero => intro sc ar h1 h2 hf; omega
  | succ n ih =>
    intro sc ar h1 h2 hf
    show (if sc = 0 then ar else ldb_loop n (ar >>> 1) ((sc + 1) &&& 0o777)) = ar >>> (512 - sc)
    rw [if_neg (by omega)]
    by_cases hwrap : sc = 511
    · subst hwrap
      have : ((511 + 1) &&& 0o777) = 0 := by decide
      rw [this, ldb_loop_zero]
    · have hstep : (sc + 1) &&& 0o777 = sc + 1 := by
        rw [and_777_eq_mod]
        omega
      rw [hstep, ih (sc + 1) (ar >>> 1) (by omega) (by omega) (by omega)]
      rw [← Nat.shiftRight_add]
      congr 1
      omega

/-- A single run of the DPB loop with a zero count returns the registers. -/
theorem dpb_loop_zero (f ar mq : Nat) : dpb_loop f ar mq 0 = (ar, mq) := by
  cases f <;> simp [dpb_loop]

/-- The DPB shift loop shifts both registers left once per step. -/
theorem dpb_loop_run : ∀ (fuel sc ar mq : Nat), 1 ≤ sc → sc < 512 → 512 - sc ≤ fuel →
    dpb_loop fuel ar mq sc = (ar <<< (512 - sc), mq <<< (512 - sc)) := by
  intro fuel
  induction fuel with
  | zero => intro sc ar mq h1 h2 hf; omega
  | succ n ih =>
    intro sc ar mq h1 h2 hf
    show (if sc = 0 then (ar, mq)
          else dpb_loop n (ar <<< 1) (mq <<< 1) ((sc + 1) &&& 0o777)) =
      (ar <<< (512 - sc), mq <<< (512 - sc))
    rw [if_neg (by omega)]
    by_cases hwrap : sc = 511
    · subst hwrap
      have : ((511 + 1) &&& 0o777) = 0 := by decide
      rw [this, dpb_loop_zero]
    · have hstep : (sc + 1) &&& 0o777 = sc + 1 := by
        rw [and_777_eq_mod]
        omega
      rw [hstep, ih (sc + 1) (ar <<< 1) (mq <<< 1) (by omega) (by omega) (by omega)]
      rw [← Nat.shiftLeft_add, ← Nat.shiftLeft_add]
      congr 2 <;> omega

/-- The byte loaded by LDB is the position-and-size field of the word. -/
theorem ldb_byte_eq (p w : Nat) :
    ldb_byte p w = (w >>> ((p >>> 30) &&& 0o77)) &&& (2 ^ ((p >>> 24) &&& 0o77) - 1) := by
  have hP : (p >>> 30) &&& 0o77 < 2 ^ 6 := by
    rw [and_77_eq_mod]
    exact Nat.mod_lt _ (by norm_num)
  have hMQ : (1 <<< ((p >>> 24) &&& 0o77)) - 1 = 2 ^ ((p >>> 24) &&& 0o77) - 1 := by
    rw [Nat.one_shiftLeft]
  have hsc : ((0o777 ^^^ ((p >>> 30) &&& 0o77)) + 1) &&& 0o777 =
      (2 ^ 9 - ((p >>> 30) &&& 0o77)) % 2 ^ 9 := by
    rw [xor_777_eq_sub (by omega), and_777_eq_mod]
    congr 1
    omega
  show ldb_loop 512 w (((0o777 ^^^ ((p >>> 30) &&& 0o77)) + 1) &&& 0o777) &&&
      ((1 <<< ((p >>> 24) &&& 0o77)) - 1) = _
  rw [hsc, hMQ]
  by_cases hP0 : (p >>> 30) &&& 0o77 = 0
  · rw [hP0]
    have hz : ((2:Nat) ^ 9 - 0) % 2 ^ 9 = 0 := by norm_num
    rw [hz, ldb_loop_zero, Nat.shiftRight_zero]
  · have hval : (2 ^ 9 - ((p >>> 30) &&& 0o77)) % 2 ^ 9 = 512 - ((p >>> 30) &&& 0o77) := by
      omega
    rw [hval, ldb_loop_run 512 (512 - ((p >>> 30) &&& 0o77)) w (by omega) (by omega) (by omega)]
    congr 2
    omega

/-- The word deposited by DPB merges the shifted byte under the shifted
mask. -/
theorem dpb_word_eq (p b w : Nat) :
    dpb_word p b w =
      (w &&& CM ((2 ^ ((p >>> 24) &&& 0o77) - 1) <<< ((p >>> 30) &&& 0o77))) |||
      ((((b &&& (2 ^ ((p >>> 24) &&& 0o77) - 1)) <<< ((p >>> 30) &&& 0o77)) &&& FMASK) &&&
        ((2 ^ ((p >>> 24) &&& 0o77) - 1) <<< ((p >>> 30) &&& 0o77))) := by
  have hP : (p >>> 30) &&& 0o77 < 2 ^ 6 := by
    rw [and_77_eq_mod]
    exact Nat.mod_lt _ (by norm_num)
  have hMQ : (1 <<< ((p >>> 24) &&& 0o77)) - 1 = 2 ^ ((p >>> 24) &&& 0o77) - 1 := by
    rw [Nat.one_shiftLeft]
  have hsc : ((0o777 ^^^ ((p >>> 30) &&& 0o77)) + 1) &&& 0o777 =
      (2 ^ 9 - ((p >>> 30) &&& 0o77)) % 2 ^ 9 := by
    rw [xor_777_eq_sub (by omega), and_777_eq_mod]
    congr 1
    omega
  show (w &&& CM (dpb_loop 512 (b &&& ((1 <<< ((p >>> 24) &&& 0o77)) - 1))
          ((1 <<< ((p >>> 24) &&& 0o77)) - 1)
          (((0o777 ^^^ ((p >>> 30) &&& 0o77)) + 1) &&& 0o777)).2) |||
      (((dpb_loop 512 (b &&& ((1 <<< ((p >>> 24) &&& 0o77)) - 1))
          ((1 <<< ((p >>> 24) &&& 0o77)) - 1)
          (((0o777 ^^^ ((p >>> 30) &&& 0o77)) + 1) &&& 0o777)).1 &&& FMASK) &&&
        (dpb_loop 512 (b &&& ((1 <<< ((p >>> 24) &&& 0o77)) - 1))
          ((1 <<< ((p >>> 24) &&& 0o77)) - 1)
          (((0o777 ^^^ ((p >>> 30) &&& 0o77)) + 1) &&& 0o777)).2) = _
  rw [hsc, hMQ]
  by_cases hP0 : (p >>> 30) &&& 0o77 = 0
  · rw [hP0]
    have hz : ((2:Nat) ^ 9 - 0) % 2 ^ 9 = 0 := by norm_num
    rw [hz, dpb_loop_zero, Nat.shiftLeft_zero, Nat.shiftLeft_zero]
  · have hval : (2 ^ 9 - ((p >>> 30) &&& 0o77)) % 2 ^ 9 = 512 - ((p >>> 30) &&& 0o77) := by
      omega
    rw [hval, dpb_loop_run 512 (512 - ((p >>> 30) &&& 0o77)) _ _ (by omega) (by omega) (by omega)]
    have hk : 512 - (512 - ((p >>> 30) &&& 0o77)) = (p >>> 30) &&& 0o77 := by omega
    rw [hk]

/-- Claim C8: for every byte pointer and every 36-bit word, depositing the
byte loaded by LDB back through DPB with the same pointer reconstructs the
word exactly. -/
theorem C8_byte_roundtrip (p w : Nat) (hw : w < 2 ^ 36) :
    dpb_word p (ldb_byte p w) w = w := by
  rw [ldb_byte_eq, dpb_word_eq]
  have hFM : FMASK = 2 ^ 36 - 1 := by decide
  apply Nat.eq_of_testBit_eq
  intro i
  simp only [CM, hFM, Nat.testBit_or, Nat.testBit_and, Nat.testBit_xor,
    Nat.testBit_shiftLeft, Nat.testBit_shiftRight, Nat.testBit_two_pow_sub_one]
  by_cases h36 : i < 36
  · by_cases hge : (p >>> 30) &&& 0o77 ≤ i
    · by_cases hin : i - ((p >>> 30) &&& 0o77) < (p >>> 24) &&& 0o77
      · simp [h36, hge, hin]
      · simp [h36, hge, hin]
    · simp [h36, hge]
  · have hwb : w.testBit i = false :=
      Nat.testBit_lt_two_pow (Nat.lt_of_lt_of_le hw (Nat.pow_le_pow_right (by norm_num) (by omega)))
    simp [h36, hwb]

/-- Witness for C8 at a pointer with position 4 and size 6. -/
theorem C8_witness :
    (0o123456765432 : Nat) < 2 ^ 36 ∧
    dpb_word ((4 <<< 30) ||| (6 <<< 24))
      (ldb_byte ((4 <<< 30) ||| (6 <<< 24)) 0o123456765432) 0o123456765432 =
      0o123456765432 :=
  ⟨by decide, C8_byte_roundtrip ((4 <<< 30) ||| (6 <<< 24)) 0o123456765432 (by decide)⟩

end KA10
